import Mathlib

/-!
# libesedb long values: construction, release and segment discovery

A shallow embedding of `libesedb/libesedb_long_value.c`.

* Pointers are `Option`s: `none` is `NULL`.  A file io handle is `Option Nat`.
* The functions the file calls but does not define (memory, libbfio, libfdata, the values
  tree) are the fields of `Collaborators`: each field is the collaborator already applied to
  the arguments that stay the same during one call (`long_values_tree`, `long_values_cache`,
  `pages_vector`, `pages_cache`, the data block and the data cache), as a function of the
  arguments that vary.  The store is deterministic: a lookup is a function of handle, key and
  flags.
* Every collaborator call is recorded, in order, as a `Call` of the `trace` of the `Outcome`;
  every `liberror_error_set` of the file is recorded in `error`.
* Return codes are C `int`s (`Int`); the segment offset is a `uint32_t` (`Nat`, reduced
  modulo `2 ^ 32` where it is advanced).
* The `do ... while` loop takes a fuel: `none` is the loop still running when the fuel is spent.
-/

namespace Libesedb

/-- Constants of `libesedb_definitions.h`, which is not among the sources: they are
parameters of the model. -/
structure Definitions where
  LIBESEDB_ITEM_FLAG_MANAGED_FILE_IO_HANDLE : Nat
  LIBESEDB_PAGE_KEY_FLAG_REVERSED_KEY : Nat
  LIBESEDB_MAXIMUM_CACHE_ENTRIES_LONG_VALUES_DATA : Nat

/-- The error codes that the file passes to `liberror_error_set`; the domain is the one in
the name of the code. -/
inductive liberror_code
  | LIBERROR_ARGUMENT_ERROR_INVALID_VALUE
  | LIBERROR_RUNTIME_ERROR_UNSUPPORTED_VALUE
  | LIBERROR_MEMORY_ERROR_INSUFFICIENT
  | LIBERROR_MEMORY_ERROR_SET_FAILED
  | LIBERROR_RUNTIME_ERROR_COPY_FAILED
  | LIBERROR_RUNTIME_ERROR_INITIALIZE_FAILED
  | LIBERROR_RUNTIME_ERROR_GET_FAILED
  | LIBERROR_IO_ERROR_READ_FAILED
  | LIBERROR_IO_ERROR_CLOSE_FAILED
  | LIBERROR_RUNTIME_ERROR_FINALIZE_FAILED
  deriving DecidableEq, Repr

/-- The field of `libesedb_values_tree_value_t` that the file reads. -/
structure libesedb_values_tree_value_t where
  data_size : Nat
  deriving DecidableEq, Repr

/-- Modelled from the spec: a segment descriptor of the data block (libfdata is not among the
sources): the offset within the long value and the size. -/
structure Segment where
  offset : Nat
  size : Nat
  deriving DecidableEq, Repr

/-- The fields of `libesedb_internal_long_value_t`.  The data block is the list of its
segment descriptors, the data cache its maximum number of entries. -/
structure libesedb_internal_long_value_t where
  file_io_handle : Option Nat
  data_block : List Segment
  data_cache : Nat
  flags : Nat
  deriving DecidableEq, Repr

/-- The results of the functions that the file calls and does not define. -/
structure Collaborators where
  /-- Whether `memory_allocate` returns a block. -/
  memory_allocate : Bool
  /-- Whether `memory_set` returns the block. -/
  memory_set : Bool
  /-- From the source handle: the return code and the destination handle. -/
  libbfio_handle_clone : Option Nat → Int × Option Nat
  libbfio_handle_set_open_on_demand : Option Nat → Int
  libfdata_block_initialize : Int
  /-- From the maximum number of cache entries. -/
  libfdata_cache_initialize : Nat → Int
  /-- From the file io handle, the key bytes and the flags: the return code and the value. -/
  libesedb_values_tree_get_value_by_key :
    Option Nat → List Nat → Nat → Int × libesedb_values_tree_value_t
  libesedb_values_tree_value_read_long_value :
    libesedb_values_tree_value_t → Option Nat → Int
  /-- From the value, the file io handle and the segment offset: the return code and the
  value as the call leaves it (the value is passed by pointer). -/
  libesedb_values_tree_value_read_long_value_segment :
    libesedb_values_tree_value_t → Option Nat → Nat → Int × libesedb_values_tree_value_t
  libbfio_handle_close : Option Nat → Int
  libbfio_handle_free : Option Nat → Int
  libfdata_block_free : Int
  libfdata_cache_free : Int

/-- One call of a collaborator, with the arguments that vary and what it returned. -/
inductive Call
  | memory_allocate (ok : Bool)
  | memory_set (ok : Bool)
  | libbfio_handle_clone (source : Option Nat) (result : Int) (destination : Option Nat)
  | libbfio_handle_set_open_on_demand (handle : Option Nat) (result : Int)
  | libfdata_block_initialize (result : Int)
  | libfdata_cache_initialize (maximum_cache_entries : Nat) (result : Int)
  | libesedb_values_tree_get_value_by_key
      (handle : Option Nat) (key : List Nat) (flags : Nat) (result : Int)
  | libesedb_values_tree_value_read_long_value (handle : Option Nat) (result : Int)
  | libesedb_values_tree_value_read_long_value_segment
      (handle : Option Nat) (offset : Nat) (result : Int)
  | libbfio_handle_close (handle : Option Nat) (result : Int)
  | libbfio_handle_free (handle : Option Nat) (result : Int)
  | libfdata_block_free (result : Int)
  | libfdata_cache_free (result : Int)
  | memory_free
  deriving DecidableEq, Repr

/-- What a call of one of the two functions leaves behind. -/
structure Outcome where
  /-- The return code. -/
  result : Int
  /-- The content of `*long_value` after the call (`none`: `NULL`, or no slot at all). -/
  long_value : Option libesedb_internal_long_value_t
  /-- The codes passed to `liberror_error_set`, in order. -/
  error : List liberror_code
  /-- The collaborator calls, in order. -/
  trace : List Call
  deriving DecidableEq, Repr

/-- The operand `~( x )` of line 93 on the 32 bits of an `int`. -/
def complement (x : Nat) : Nat :=
  x ^^^ 0xFFFFFFFF

/-- Modelled from the spec: the macro of `byte_stream.h`, which is not among the sources:
the four bytes of a 32-bit value, least significant first. -/
def byte_stream_copy_from_uint32_little_endian (value : Nat) : List Nat :=
  [value % 256, (value / 256) % 256, (value / 65536) % 256, (value / 16777216) % 256]

/-- The eight bytes of `long_value_segment_key` (lines 305-308 and 312-314). -/
def long_value_segment_key (long_value_key : List Nat) (long_value_segment_offset : Nat) :
    List Nat :=
  [long_value_key.getD 3 0, long_value_key.getD 2 0, long_value_key.getD 1 0,
    long_value_key.getD 0 0]
    ++ byte_stream_copy_from_uint32_little_endian long_value_segment_offset

/-- The handle release of the failure paths (lines 198-203, 225-230, 260-265, 292-297,
342-347, 378-383). -/
def free_managed_handle (defs : Definitions) (env : Collaborators) (flags : Nat)
    (handle : Option Nat) : List Call :=
  if flags &&& defs.LIBESEDB_ITEM_FLAG_MANAGED_FILE_IO_HANDLE ≠ 0 then
    [Call.libbfio_handle_free handle (env.libbfio_handle_free handle)]
  else []

/-- The release of lines 253-267, repeated at 285-299, 335-349 and 371-385. -/
def free_all (defs : Definitions) (env : Collaborators) (flags : Nat)
    (handle : Option Nat) : List Call :=
  [Call.libfdata_cache_free env.libfdata_cache_free,
    Call.libfdata_block_free env.libfdata_block_free]
    ++ free_managed_handle defs env flags handle ++ [Call.memory_free]

/-- What the loop of lines 310-392 leaves behind. -/
structure Discovery where
  /-- The code set by a failing pass (`none`: the loop ran to its end). -/
  error : Option liberror_code
  /-- The segments appended to the data block, in order. -/
  segments : List Segment
  /-- The collaborator calls of the loop, in order. -/
  trace : List Call
  deriving DecidableEq, Repr

/-- Modelled from the spec: what `libesedb_values_tree_value_read_long_value_segment` (not
among the sources) appends to the data block when it returns 1: one segment descriptor, at
the offset it was given, of the data size of the value. -/
def appended_segment (long_value_segment_offset : Nat)
    (values_tree_value : libesedb_values_tree_value_t) : Segment :=
  ⟨long_value_segment_offset, values_tree_value.data_size⟩

/-- The `do ... while( result == 1 )` loop of lines 310-392, from the pass at
`long_value_segment_offset` on. -/
def discover_segments (defs : Definitions) (env : Collaborators) (flags : Nat)
    (handle : Option Nat) (long_value_key : List Nat) : Nat → Nat → Option Discovery
  | 0, _ => none
  | fuel + 1, long_value_segment_offset =>
    let key := long_value_segment_key long_value_key long_value_segment_offset
    let found := env.libesedb_values_tree_get_value_by_key handle key 0
    let lookup := Call.libesedb_values_tree_get_value_by_key handle key 0 found.1
    if found.1 = -1 then
      some ⟨some liberror_code.LIBERROR_RUNTIME_ERROR_GET_FAILED, [],
        lookup :: free_all defs env flags handle⟩
    else if found.1 ≠ 0 then
      let read := env.libesedb_values_tree_value_read_long_value_segment found.2 handle
        long_value_segment_offset
      let read_call := Call.libesedb_values_tree_value_read_long_value_segment handle
        long_value_segment_offset read.1
      if read.1 ≠ 1 then
        some ⟨some liberror_code.LIBERROR_IO_ERROR_READ_FAILED, [],
          lookup :: read_call :: free_all defs env flags handle⟩
      else
        let segment := appended_segment long_value_segment_offset read.2
        let next := (long_value_segment_offset + read.2.data_size) % 2 ^ 32
        if found.1 = 1 then
          match discover_segments defs env flags handle long_value_key fuel next with
          | none => none
          | some d => some ⟨d.error, segment :: d.segments, lookup :: read_call :: d.trace⟩
        else some ⟨none, [segment], [lookup, read_call]⟩
    else some ⟨none, [], [lookup]⟩

/-- The function `libesedb_long_value_initialize` (lines 39-399).  `long_value` is the
pointer to the slot (`none`: `NULL`; `some none`: a slot holding `NULL`), `long_value_key`
the key buffer (`none`: `NULL`). -/
def libesedb_long_value_initialize (defs : Definitions) (env : Collaborators) (fuel : Nat)
    (long_value : Option (Option libesedb_internal_long_value_t))
    (file_io_handle : Option Nat) (long_value_key : Option (List Nat))
    (long_value_key_size : Nat) (flags : Nat) : Option Outcome :=
  match long_value with
  | none => some ⟨-1, none, [liberror_code.LIBERROR_ARGUMENT_ERROR_INVALID_VALUE], []⟩
  | some slot =>
  match long_value_key with
  | none => some ⟨-1, slot, [liberror_code.LIBERROR_ARGUMENT_ERROR_INVALID_VALUE], []⟩
  | some key =>
  if long_value_key_size ≠ 4 then
    some ⟨-1, slot, [liberror_code.LIBERROR_RUNTIME_ERROR_UNSUPPORTED_VALUE], []⟩
  else if flags &&& complement defs.LIBESEDB_ITEM_FLAG_MANAGED_FILE_IO_HANDLE ≠ 0 then
    some ⟨-1, slot, [liberror_code.LIBERROR_RUNTIME_ERROR_UNSUPPORTED_VALUE], []⟩
  else
  match slot with
  | some internal_long_value => some ⟨1, some internal_long_value, [], []⟩
  | none =>
  if env.memory_allocate = false then
    some ⟨-1, none, [liberror_code.LIBERROR_MEMORY_ERROR_INSUFFICIENT],
      [Call.memory_allocate false]⟩
  else
  let t1 := [Call.memory_allocate true, Call.memory_set env.memory_set]
  if env.memory_set = false then
    some ⟨-1, none, [liberror_code.LIBERROR_MEMORY_ERROR_SET_FAILED], t1 ++ [Call.memory_free]⟩
  else
  let managed := flags &&& defs.LIBESEDB_ITEM_FLAG_MANAGED_FILE_IO_HANDLE ≠ 0
  let clone := env.libbfio_handle_clone file_io_handle
  let handle := if managed then clone.2 else file_io_handle
  let open_on_demand := env.libbfio_handle_set_open_on_demand handle
  let t2 := t1 ++
    (if managed then [Call.libbfio_handle_clone file_io_handle clone.1 clone.2] else [])
  if managed ∧ clone.1 ≠ 1 then
    some ⟨-1, none, [liberror_code.LIBERROR_RUNTIME_ERROR_COPY_FAILED], t2 ++ [Call.memory_free]⟩
  else
  let t3 := t2 ++
    (if managed then [Call.libbfio_handle_set_open_on_demand handle open_on_demand] else [])
  if managed ∧ open_on_demand ≠ 1 then
    some ⟨-1, none, [liberror_code.LIBERROR_RUNTIME_ERROR_COPY_FAILED],
      t3 ++ [Call.libbfio_handle_free handle (env.libbfio_handle_free handle), Call.memory_free]⟩
  else
  let t4 := t3 ++ [Call.libfdata_block_initialize env.libfdata_block_initialize]
  if env.libfdata_block_initialize ≠ 1 then
    some ⟨-1, none, [liberror_code.LIBERROR_RUNTIME_ERROR_INITIALIZE_FAILED],
      t4 ++ free_managed_handle defs env flags handle ++ [Call.memory_free]⟩
  else
  let maximum := defs.LIBESEDB_MAXIMUM_CACHE_ENTRIES_LONG_VALUES_DATA
  let t5 := t4 ++ [Call.libfdata_cache_initialize maximum (env.libfdata_cache_initialize maximum)]
  if env.libfdata_cache_initialize maximum ≠ 1 then
    some ⟨-1, none, [liberror_code.LIBERROR_RUNTIME_ERROR_INITIALIZE_FAILED],
      t5 ++ [Call.libfdata_block_free env.libfdata_block_free]
        ++ free_managed_handle defs env flags handle ++ [Call.memory_free]⟩
  else
  let root_key := key.take long_value_key_size
  let root := env.libesedb_values_tree_get_value_by_key handle root_key
    defs.LIBESEDB_PAGE_KEY_FLAG_REVERSED_KEY
  let t6 := t5 ++ [Call.libesedb_values_tree_get_value_by_key handle root_key
    defs.LIBESEDB_PAGE_KEY_FLAG_REVERSED_KEY root.1]
  if root.1 ≠ 1 then
    some ⟨-1, none, [liberror_code.LIBERROR_RUNTIME_ERROR_GET_FAILED],
      t6 ++ free_all defs env flags handle⟩
  else
  let root_read := env.libesedb_values_tree_value_read_long_value root.2 handle
  let t7 := t6 ++ [Call.libesedb_values_tree_value_read_long_value handle root_read]
  if root_read ≠ 1 then
    some ⟨-1, none, [liberror_code.LIBERROR_IO_ERROR_READ_FAILED],
      t7 ++ free_all defs env flags handle⟩
  else
  match discover_segments defs env flags handle key fuel 0 with
  | none => none
  | some d =>
    match d.error with
    | some code => some ⟨-1, none, [code], t7 ++ d.trace⟩
    | none =>
      some ⟨1, some ⟨handle, d.segments, maximum, flags⟩, [], t7 ++ d.trace⟩

/-- The function `libesedb_long_value_free` (lines 404-490). -/
def libesedb_long_value_free (defs : Definitions) (env : Collaborators)
    (long_value : Option (Option libesedb_internal_long_value_t)) : Outcome :=
  match long_value with
  | none => ⟨-1, none, [liberror_code.LIBERROR_ARGUMENT_ERROR_INVALID_VALUE], []⟩
  | some none => ⟨1, none, [], []⟩
  | some (some internal_long_value) =>
    let handle := internal_long_value.file_io_handle
    let managed := internal_long_value.flags &&& defs.LIBESEDB_ITEM_FLAG_MANAGED_FILE_IO_HANDLE ≠ 0
      ∧ handle ≠ none
    let close := env.libbfio_handle_close handle
    let handle_free := env.libbfio_handle_free handle
    let result0 : Int := 1
    let result1 : Int := if managed ∧ close ≠ 0 then -1 else result0
    let e1 := if managed ∧ close ≠ 0 then [liberror_code.LIBERROR_IO_ERROR_CLOSE_FAILED] else []
    let result2 : Int := if managed ∧ handle_free ≠ 1 then -1 else result1
    let e2 := if managed ∧ handle_free ≠ 1 then
      [liberror_code.LIBERROR_RUNTIME_ERROR_FINALIZE_FAILED] else []
    let t2 := if managed then
      [Call.libbfio_handle_close handle close, Call.libbfio_handle_free handle handle_free]
      else []
    let result3 : Int := if env.libfdata_block_free ≠ 1 then -1 else result2
    let e3 := if env.libfdata_block_free ≠ 1 then
      [liberror_code.LIBERROR_RUNTIME_ERROR_FINALIZE_FAILED] else []
    let result4 : Int := if env.libfdata_cache_free ≠ 1 then -1 else result3
    let e4 := if env.libfdata_cache_free ≠ 1 then
      [liberror_code.LIBERROR_RUNTIME_ERROR_FINALIZE_FAILED] else []
    ⟨result4, none, e1 ++ e2 ++ e3 ++ e4,
      t2 ++ [Call.libfdata_block_free env.libfdata_block_free,
        Call.libfdata_cache_free env.libfdata_cache_free, Call.memory_free]⟩

/-- Modelled from the spec: `libfdata_block_get_number_of_segments` (libfdata is not among
the sources): the count of the descriptors appended to the block; it returns 1. -/
def libfdata_block_get_number_of_segments (data_block : List Segment) : Int × Nat :=
  (1, data_block.length)

/-- The function `libesedb_long_value_get_number_of_segments` (lines 495-531): the return
code and `*number_of_segments` when it is written. -/
def libesedb_long_value_get_number_of_segments
    (long_value : Option libesedb_internal_long_value_t) : Int × Option Nat :=
  match long_value with
  | none => (-1, none)
  | some internal_long_value =>
    let count := libfdata_block_get_number_of_segments internal_long_value.data_block
    if count.1 ≠ 1 then (-1, none) else (1, some count.2)

/-! ## Reading a trace -/

/-- The resources of a long value. -/
inductive Resource
  | long_value
  | file_io_handle (handle : Option Nat)
  | data_block
  | data_cache
  deriving DecidableEq, Repr

/-- The resource that a call hands to the long value: a successful allocation, clone,
block creation or cache creation. -/
def Call.acquires : Call → Option Resource
  | Call.memory_allocate ok => if ok then some Resource.long_value else none
  | Call.libbfio_handle_clone _ result destination =>
    if result = 1 then some (Resource.file_io_handle destination) else none
  | Call.libfdata_block_initialize result => if result = 1 then some Resource.data_block else none
  | Call.libfdata_cache_initialize _ result =>
    if result = 1 then some Resource.data_cache else none
  | _ => none

/-- The resource that a call gives back. -/
def Call.releases : Call → Option Resource
  | Call.memory_free => some Resource.long_value
  | Call.libbfio_handle_free handle _ => some (Resource.file_io_handle handle)
  | Call.libfdata_block_free _ => some Resource.data_block
  | Call.libfdata_cache_free _ => some Resource.data_cache
  | _ => none

/-- The resources acquired along a trace, in order. -/
def acquired (trace : List Call) : List Resource :=
  trace.filterMap Call.acquires

/-- The resources released along a trace, in order. -/
def released (trace : List Call) : List Resource :=
  trace.filterMap Call.releases

/-- The store lookups of a trace, in order: handle, key, flags and return code. -/
def lookups (trace : List Call) : List (Option Nat × List Nat × Nat × Int) :=
  trace.filterMap fun c =>
    match c with
    | Call.libesedb_values_tree_get_value_by_key handle key flags result =>
      some (handle, key, flags, result)
    | _ => none

/-- The segment reads of a trace, in order: the file io handle and the offset passed. -/
def segment_reads (trace : List Call) : List (Option Nat × Nat) :=
  trace.filterMap fun c =>
    match c with
    | Call.libesedb_values_tree_value_read_long_value_segment handle offset _ =>
      some (handle, offset)
    | _ => none

/-- The file io handles that a trace clones, closes or frees. -/
def handle_operations (trace : List Call) : List (Option Nat) :=
  trace.filterMap fun c =>
    match c with
    | Call.libbfio_handle_clone source _ _ => some source
    | Call.libbfio_handle_close handle _ => some handle
    | Call.libbfio_handle_free handle _ => some handle
    | _ => none

/-! ## The steps before the segment loop -/

/-- The file io handle that the long value stores (lines 138-147). -/
def stored_handle (defs : Definitions) (env : Collaborators) (file_io_handle : Option Nat)
    (flags : Nat) : Option Nat :=
  if flags &&& defs.LIBESEDB_ITEM_FLAG_MANAGED_FILE_IO_HANDLE ≠ 0 then
    (env.libbfio_handle_clone file_io_handle).2
  else file_io_handle

/-- The root lookup of lines 236-244: the return code and the value. -/
def root_lookup (defs : Definitions) (env : Collaborators) (file_io_handle : Option Nat)
    (key : List Nat) (flags : Nat) : Int × libesedb_values_tree_value_t :=
  env.libesedb_values_tree_get_value_by_key (stored_handle defs env file_io_handle flags)
    (key.take 4) defs.LIBESEDB_PAGE_KEY_FLAG_REVERSED_KEY

/-- The return code of the root read of lines 271-276. -/
def root_read (defs : Definitions) (env : Collaborators) (file_io_handle : Option Nat)
    (key : List Nat) (flags : Nat) : Int :=
  env.libesedb_values_tree_value_read_long_value (root_lookup defs env file_io_handle key flags).2
    (stored_handle defs env file_io_handle flags)

/-- The steps of lines 107-235 succeed: the allocation and its clearing, in the managed mode
the clone and its open-on-demand setting, the data block and the data cache. -/
def ResourcesAcquired (defs : Definitions) (env : Collaborators) (file_io_handle : Option Nat)
    (flags : Nat) : Prop :=
  env.memory_allocate = true ∧ env.memory_set = true
    ∧ (flags &&& defs.LIBESEDB_ITEM_FLAG_MANAGED_FILE_IO_HANDLE ≠ 0 →
        (env.libbfio_handle_clone file_io_handle).1 = 1
        ∧ env.libbfio_handle_set_open_on_demand
            (stored_handle defs env file_io_handle flags) = 1)
    ∧ env.libfdata_block_initialize = 1
    ∧ env.libfdata_cache_initialize defs.LIBESEDB_MAXIMUM_CACHE_ENTRIES_LONG_VALUES_DATA = 1

instance (defs : Definitions) (env : Collaborators) (file_io_handle : Option Nat)
    (flags : Nat) : Decidable (ResourcesAcquired defs env file_io_handle flags) := by
  unfold ResourcesAcquired
  infer_instance

/-- Every step of lines 107-302 succeeds: the resources are acquired, the root lookup
returns 1 and the root read returns 1. -/
def SetupSucceeds (defs : Definitions) (env : Collaborators) (file_io_handle : Option Nat)
    (key : List Nat) (flags : Nat) : Prop :=
  ResourcesAcquired defs env file_io_handle flags
    ∧ (root_lookup defs env file_io_handle key flags).1 = 1
    ∧ root_read defs env file_io_handle key flags = 1

instance (defs : Definitions) (env : Collaborators) (file_io_handle : Option Nat)
    (key : List Nat) (flags : Nat) : Decidable (SetupSucceeds defs env file_io_handle key flags) := by
  unfold SetupSucceeds
  infer_instance

/-- The calls of the clone and of its open-on-demand setting (lines 144-164), none in the
borrowing mode. -/
def handle_calls (defs : Definitions) (env : Collaborators) (file_io_handle : Option Nat)
    (flags : Nat) : List Call :=
  if flags &&& defs.LIBESEDB_ITEM_FLAG_MANAGED_FILE_IO_HANDLE ≠ 0 then
    [Call.libbfio_handle_clone file_io_handle (env.libbfio_handle_clone file_io_handle).1
        (env.libbfio_handle_clone file_io_handle).2,
      Call.libbfio_handle_set_open_on_demand (env.libbfio_handle_clone file_io_handle).2
        (env.libbfio_handle_set_open_on_demand (env.libbfio_handle_clone file_io_handle).2)]
  else []

/-- The calls of lines 107-164 when they succeed. -/
def allocation_trace (defs : Definitions) (env : Collaborators) (file_io_handle : Option Nat)
    (flags : Nat) : List Call :=
  [Call.memory_allocate true, Call.memory_set true] ++ handle_calls defs env file_io_handle flags


/-- The calls of lines 107-235 when they succeed. -/
def resources_trace (defs : Definitions) (env : Collaborators) (file_io_handle : Option Nat)
    (flags : Nat) : List Call :=
  allocation_trace defs env file_io_handle flags
    ++ [Call.libfdata_block_initialize 1,
      Call.libfdata_cache_initialize defs.LIBESEDB_MAXIMUM_CACHE_ENTRIES_LONG_VALUES_DATA 1]

/-- The calls of lines 107-302 when all of them succeed. -/
def setup_trace (defs : Definitions) (env : Collaborators) (file_io_handle : Option Nat)
    (key : List Nat) (flags : Nat) : List Call :=
  resources_trace defs env file_io_handle flags
    ++ [Call.libesedb_values_tree_get_value_by_key (stored_handle defs env file_io_handle flags)
        (key.take 4) defs.LIBESEDB_PAGE_KEY_FLAG_REVERSED_KEY 1,
      Call.libesedb_values_tree_value_read_long_value
        (stored_handle defs env file_io_handle flags) 1]

/-- The resources that a construction holds once the data cache is created. -/
def held_resources (defs : Definitions) (env : Collaborators) (file_io_handle : Option Nat)
    (flags : Nat) : List Resource :=
  Resource.long_value ::
    ((if flags &&& defs.LIBESEDB_ITEM_FLAG_MANAGED_FILE_IO_HANDLE ≠ 0 then
        [Resource.file_io_handle (stored_handle defs env file_io_handle flags)] else [])
      ++ [Resource.data_block, Resource.data_cache])

/-! ## The passes of the segment loop -/

/-- The data size that line 389 reads in the pass at `offset`: the data size of the value
that the lookup found, as the segment read leaves it. -/
def segment_data_size (env : Collaborators) (handle : Option Nat) (long_value_key : List Nat)
    (offset : Nat) : Nat :=
  (env.libesedb_values_tree_value_read_long_value_segment
    (env.libesedb_values_tree_get_value_by_key handle
      (long_value_segment_key long_value_key offset) 0).2 handle offset).2.data_size

/-- The value of `long_value_segment_offset`, a `uint32_t`, after line 389 in the pass at
`offset`. -/
def next_segment_offset (env : Collaborators) (handle : Option Nat) (long_value_key : List Nat)
    (offset : Nat) : Nat :=
  (offset + segment_data_size env handle long_value_key offset) % 2 ^ 32

/-- The pass at `offset` finds a segment (the lookup returns 1), reads it (the read returns 1)
and the loop goes on at `next`. -/
def SegmentStep (env : Collaborators) (handle : Option Nat) (long_value_key : List Nat)
    (offset next : Nat) : Prop :=
  (env.libesedb_values_tree_get_value_by_key handle
      (long_value_segment_key long_value_key offset) 0).1 = 1
    ∧ (env.libesedb_values_tree_value_read_long_value_segment
        (env.libesedb_values_tree_get_value_by_key handle
          (long_value_segment_key long_value_key offset) 0).2 handle offset).1 = 1
    ∧ next = next_segment_offset env handle long_value_key offset

instance (env : Collaborators) (handle : Option Nat) (long_value_key : List Nat)
    (offset next : Nat) : Decidable (SegmentStep env handle long_value_key offset next) := by
  unfold SegmentStep
  infer_instance

/-- The loop, started at offset 0, makes a pass at `offset`. -/
def Reached (env : Collaborators) (handle : Option Nat) (long_value_key : List Nat)
    (offset : Nat) : Prop :=
  Relation.ReflTransGen (SegmentStep env handle long_value_key) 0 offset

/-- The file io handles that a trace closes or frees. -/
def handle_releases (trace : List Call) : List (Option Nat) :=
  trace.filterMap fun c =>
    match c with
    | Call.libbfio_handle_close handle _ => some handle
    | Call.libbfio_handle_free handle _ => some handle
    | _ => none

/-- A construction step that `libesedb_long_value_initialize` takes as failed: an allocation
or clearing that returns `NULL`, a clone, open-on-demand setting, block or cache creation,
root read or segment read that does not return 1, a root lookup (key of 4 bytes, line 244)
that does not return 1, a segment lookup (key of 8 bytes, line 326) that returns -1. -/
def Call.fails : Call → Prop
  | Call.memory_allocate ok => ok = false
  | Call.memory_set ok => ok = false
  | Call.libbfio_handle_clone _ result _ => result ≠ 1
  | Call.libbfio_handle_set_open_on_demand _ result => result ≠ 1
  | Call.libfdata_block_initialize result => result ≠ 1
  | Call.libfdata_cache_initialize _ result => result ≠ 1
  | Call.libesedb_values_tree_get_value_by_key _ key _ result =>
    if key.length = 8 then result = -1 else result ≠ 1
  | Call.libesedb_values_tree_value_read_long_value _ result => result ≠ 1
  | Call.libesedb_values_tree_value_read_long_value_segment _ _ result => result ≠ 1
  | _ => False

/-- A cleanup step that `libesedb_long_value_free` takes as successful: a close that
returns 0 (line 434), a handle, block or cache release that returns 1; `memory_free`
returns nothing. -/
def Call.succeeds : Call → Prop
  | Call.libbfio_handle_close _ result => result = 0
  | Call.libbfio_handle_free _ result => result = 1
  | Call.libfdata_block_free result => result = 1
  | Call.libfdata_cache_free result => result = 1
  | _ => True

/-! ## Instances for the examples -/

/-- An instance of the constants: the managed flag and the reversed-key flag are bit 0, the
data cache holds 16 entries. -/
def example_definitions : Definitions :=
  ⟨1, 1, 16⟩

/-- The store of the scenario: the root record of the long value with key bytes
`[1, 0, 0, 0]`, a segment of 4096 bytes at offset 0, a segment of 512 bytes at offset 4096,
and nothing at offset 4608.  Every other collaborator succeeds; a clone of handle `h` is
handle `h + 100`. -/
def scenario_store : Collaborators where
  memory_allocate := true
  memory_set := true
  libbfio_handle_clone := fun h => (1, h.map (· + 100))
  libbfio_handle_set_open_on_demand := fun _ => 1
  libfdata_block_initialize := 1
  libfdata_cache_initialize := fun _ => 1
  libesedb_values_tree_get_value_by_key := fun _ key flags =>
    if key = [1, 0, 0, 0] ∧ flags = 1 then (1, ⟨0⟩)
    else if key = [0, 0, 0, 1, 0, 0, 0, 0] ∧ flags = 0 then (1, ⟨4096⟩)
    else if key = [0, 0, 0, 1, 0, 16, 0, 0] ∧ flags = 0 then (1, ⟨512⟩)
    else (0, ⟨0⟩)
  libesedb_values_tree_value_read_long_value := fun _ _ => 1
  libesedb_values_tree_value_read_long_value_segment := fun v _ _ => (1, v)
  libbfio_handle_close := fun _ => 0
  libbfio_handle_free := fun _ => 1
  libfdata_block_free := 1
  libfdata_cache_free := 1

/-- The store of the scenario, where the read of the segment at offset 4096 fails. -/
def failing_read_store : Collaborators :=
  { scenario_store with
    libesedb_values_tree_value_read_long_value_segment := fun v _ offset =>
      if offset = 4096 then (-1, v) else (1, v) }

/-- A store that holds the root record of the long value with key bytes `[1, 2, 3, 4]` and
no segment.  Every other collaborator succeeds. -/
def reversed_key_store : Collaborators :=
  { scenario_store with
    libesedb_values_tree_get_value_by_key := fun _ key flags =>
      if key = [1, 2, 3, 4] ∧ flags = 1 then (1, ⟨0⟩) else (0, ⟨0⟩) }

/-- A store that holds the root record of the long value with key bytes `[1, 0, 0, 0]` and,
at offset 0, a segment of data size 0.  Every other collaborator succeeds. -/
def zero_size_store : Collaborators :=
  { scenario_store with
    libesedb_values_tree_get_value_by_key := fun _ key flags =>
      if key = [1, 0, 0, 0] ∧ flags = 1 then (1, ⟨0⟩)
      else if key = [0, 0, 0, 1, 0, 0, 0, 0] ∧ flags = 0 then (1, ⟨0⟩)
      else (0, ⟨0⟩) }

/-! ## Lemmas -/

theorem testBit_mask32 (i : Nat) : (0xFFFFFFFF : Nat).testBit i = decide (i < 32) := by
  have h : (0xFFFFFFFF : Nat) = 2 ^ 32 - 1 := by norm_num
  rw [h, Nat.testBit_two_pow_sub_one]

theorem land_complement_ne_zero_iff (flags m : Nat) (hflags : flags < 2 ^ 32) :
    flags &&& complement m ≠ 0 ↔ ∃ i, flags.testBit i = true ∧ m.testBit i = false := by
  unfold complement
  constructor
  · intro h
    obtain ⟨i, hi⟩ := Nat.ne_zero_implies_bit_true h
    rw [Nat.testBit_and, Nat.testBit_xor, testBit_mask32] at hi
    refine ⟨i, ?_, ?_⟩
    · revert hi; cases flags.testBit i <;> simp
    · have hlt : i < 32 := by
        by_contra hge
        have : flags.testBit i = false :=
          Nat.testBit_lt_two_pow (lt_of_lt_of_le hflags (Nat.pow_le_pow_right (by norm_num) (by omega)))
        rw [this] at hi
        simp at hi
      revert hi
      simp [hlt]
  · rintro ⟨i, h1, h2⟩ h0
    have hlt : i < 32 := by
      by_contra hge
      have : flags.testBit i = false :=
        Nat.testBit_lt_two_pow (lt_of_lt_of_le hflags (Nat.pow_le_pow_right (by norm_num) (by omega)))
      rw [this] at h1
      simp at h1
    have := congrArg (fun x => Nat.testBit x i) h0
    simp [Nat.testBit_and, Nat.testBit_xor, testBit_mask32, h1, h2, hlt] at this

theorem discover_segments_error (defs : Definitions) (env : Collaborators) (flags : Nat)
    (handle : Option Nat) (key : List Nat) (fuel : Nat) :
    ∀ (offset : Nat) (d : Discovery) (code : liberror_code),
      discover_segments defs env flags handle key fuel offset = some d → d.error = some code →
      code = liberror_code.LIBERROR_RUNTIME_ERROR_GET_FAILED
        ∨ code = liberror_code.LIBERROR_IO_ERROR_READ_FAILED := by
  induction fuel with
  | zero => intro offset d code h; simp [discover_segments] at h
  | succ n ih =>
    intro offset d code h hc
    simp only [discover_segments] at h
    split_ifs at h with h1 h2 h3 h4
    · cases h; simp at hc; exact Or.inl hc.symm
    · cases h; simp at hc; exact Or.inr hc.symm
    · split at h
      · cases h
      · rename_i d2 hd2
        cases h
        exact ih _ d2 code hd2 hc
    · cases h; simp at hc
    · cases h; simp at hc

theorem initialize_of_setup (defs : Definitions) (env : Collaborators) (fuel : Nat)
    (file_io_handle : Option Nat) (key : List Nat) (flags : Nat)
    (hflags : flags &&& complement defs.LIBESEDB_ITEM_FLAG_MANAGED_FILE_IO_HANDLE = 0)
    (hsetup : SetupSucceeds defs env file_io_handle key flags) :
    libesedb_long_value_initialize defs env fuel (some none) file_io_handle (some key) 4 flags
      = match discover_segments defs env flags (stored_handle defs env file_io_handle flags)
          key fuel 0 with
        | none => none
        | some d =>
          match d.error with
          | some code =>
            some ⟨-1, none, [code], setup_trace defs env file_io_handle key flags ++ d.trace⟩
          | none =>
            some ⟨1, some ⟨stored_handle defs env file_io_handle flags, d.segments,
              defs.LIBESEDB_MAXIMUM_CACHE_ENTRIES_LONG_VALUES_DATA, flags⟩, [],
              setup_trace defs env file_io_handle key flags ++ d.trace⟩ := by
  obtain ⟨⟨h1, h2, h3, h4, h5⟩, h6, h7⟩ := hsetup
  unfold root_read at h7
  unfold root_lookup at h6 h7
  by_cases hm : flags &&& defs.LIBESEDB_ITEM_FLAG_MANAGED_FILE_IO_HANDLE = 0
  · simp only [stored_handle, hm, ne_eq, not_true_eq_false, if_false] at h6 h7
    simp [ libesedb_long_value_initialize, setup_trace, resources_trace, allocation_trace,
      handle_calls, stored_handle, hflags,
      h1, h2, hm, h4, h5, h6, h7]
  · obtain ⟨h3a, h3b⟩ := h3 hm
    simp only [stored_handle, hm, ne_eq, not_false_eq_true, if_true] at h6 h7 h3b
    simp [ libesedb_long_value_initialize, setup_trace, resources_trace, allocation_trace,
      handle_calls, stored_handle, hflags,
      h1, h2, hm, h3a, h3b, h4, h5, h6, h7]

/-- The calls of lines 107-235 when they succeed. -/
theorem resources_trace_eq (defs : Definitions) (env : Collaborators)
    (file_io_handle : Option Nat) (flags : Nat) :
    resources_trace defs env file_io_handle flags
      = allocation_trace defs env file_io_handle flags
        ++ [Call.libfdata_block_initialize 1,
          Call.libfdata_cache_initialize
            defs.LIBESEDB_MAXIMUM_CACHE_ENTRIES_LONG_VALUES_DATA 1] := rfl

/-- The failures of lines 107-235: the outcome of each. -/
theorem initialize_resources_failure (defs : Definitions) (env : Collaborators) (fuel : Nat)
    (file_io_handle : Option Nat) (key : List Nat) (flags : Nat)
    (hflags : flags &&& complement defs.LIBESEDB_ITEM_FLAG_MANAGED_FILE_IO_HANDLE = 0)
    (hsetup : ¬ ResourcesAcquired defs env file_io_handle flags) :
    ∃ code trace,
      libesedb_long_value_initialize defs env fuel (some none) file_io_handle (some key) 4 flags
        = some ⟨-1, none, [code], trace⟩
      ∧ ((code = liberror_code.LIBERROR_MEMORY_ERROR_INSUFFICIENT
          ∧ trace = [Call.memory_allocate false])
        ∨ (code = liberror_code.LIBERROR_MEMORY_ERROR_SET_FAILED
          ∧ trace = [Call.memory_allocate true, Call.memory_set false, Call.memory_free])
        ∨ (code = liberror_code.LIBERROR_RUNTIME_ERROR_COPY_FAILED
          ∧ flags &&& defs.LIBESEDB_ITEM_FLAG_MANAGED_FILE_IO_HANDLE ≠ 0
          ∧ (env.libbfio_handle_clone file_io_handle).1 ≠ 1
          ∧ trace = [Call.memory_allocate true, Call.memory_set true,
              Call.libbfio_handle_clone file_io_handle (env.libbfio_handle_clone file_io_handle).1
                (env.libbfio_handle_clone file_io_handle).2,
              Call.memory_free])
        ∨ (code = liberror_code.LIBERROR_RUNTIME_ERROR_COPY_FAILED
          ∧ flags &&& defs.LIBESEDB_ITEM_FLAG_MANAGED_FILE_IO_HANDLE ≠ 0
          ∧ env.libbfio_handle_set_open_on_demand (env.libbfio_handle_clone file_io_handle).2 ≠ 1
          ∧ trace = [Call.memory_allocate true, Call.memory_set true,
              Call.libbfio_handle_clone file_io_handle 1
                (env.libbfio_handle_clone file_io_handle).2,
              Call.libbfio_handle_set_open_on_demand (env.libbfio_handle_clone file_io_handle).2
                (env.libbfio_handle_set_open_on_demand
                  (env.libbfio_handle_clone file_io_handle).2),
              Call.libbfio_handle_free (env.libbfio_handle_clone file_io_handle).2
                (env.libbfio_handle_free (env.libbfio_handle_clone file_io_handle).2),
              Call.memory_free])
        ∨ (code = liberror_code.LIBERROR_RUNTIME_ERROR_INITIALIZE_FAILED
          ∧ env.libfdata_block_initialize ≠ 1
          ∧ (flags &&& defs.LIBESEDB_ITEM_FLAG_MANAGED_FILE_IO_HANDLE ≠ 0 →
              (env.libbfio_handle_clone file_io_handle).1 = 1)
          ∧ trace = allocation_trace defs env file_io_handle flags
              ++ [Call.libfdata_block_initialize env.libfdata_block_initialize]
              ++ free_managed_handle defs env flags (stored_handle defs env file_io_handle flags)
              ++ [Call.memory_free])
        ∨ (code = liberror_code.LIBERROR_RUNTIME_ERROR_INITIALIZE_FAILED
          ∧ env.libfdata_cache_initialize
              defs.LIBESEDB_MAXIMUM_CACHE_ENTRIES_LONG_VALUES_DATA ≠ 1
          ∧ (flags &&& defs.LIBESEDB_ITEM_FLAG_MANAGED_FILE_IO_HANDLE ≠ 0 →
              (env.libbfio_handle_clone file_io_handle).1 = 1)
          ∧ trace = allocation_trace defs env file_io_handle flags
              ++ [Call.libfdata_block_initialize 1,
                Call.libfdata_cache_initialize
                  defs.LIBESEDB_MAXIMUM_CACHE_ENTRIES_LONG_VALUES_DATA
                  (env.libfdata_cache_initialize
                    defs.LIBESEDB_MAXIMUM_CACHE_ENTRIES_LONG_VALUES_DATA),
                Call.libfdata_block_free env.libfdata_block_free]
              ++ free_managed_handle defs env flags (stored_handle defs env file_io_handle flags)
              ++ [Call.memory_free])) := by
  by_cases h1 : env.memory_allocate = true
  swap
  · exact ⟨_, _, by simp [ libesedb_long_value_initialize, hflags, h1], Or.inl ⟨rfl, rfl⟩⟩
  by_cases h2 : env.memory_set = true
  swap
  · exact ⟨_, _, by simp [ libesedb_long_value_initialize, hflags, h1, h2],
      Or.inr (Or.inl ⟨rfl, rfl⟩)⟩
  by_cases hm : flags &&& defs.LIBESEDB_ITEM_FLAG_MANAGED_FILE_IO_HANDLE = 0
  · simp only [ResourcesAcquired, stored_handle, hm, h1, h2, ne_eq, not_true_eq_false, if_false,
      false_implies, true_and] at hsetup
    by_cases h4 : env.libfdata_block_initialize = 1
    swap
    · refine ⟨_, _, ?_, Or.inr (Or.inr (Or.inr (Or.inr (Or.inl ⟨rfl, h4, by simp [hm], rfl⟩))))⟩
      simp [ libesedb_long_value_initialize, allocation_trace, handle_calls, stored_handle,
        free_managed_handle, hflags, h1, h2, hm, h4]
    have h5 : ¬ env.libfdata_cache_initialize
        defs.LIBESEDB_MAXIMUM_CACHE_ENTRIES_LONG_VALUES_DATA = 1 := fun h5 => hsetup ⟨h4, h5⟩
    refine ⟨_, _, ?_,
      Or.inr (Or.inr (Or.inr (Or.inr (Or.inr ⟨rfl, h5, by simp [hm], rfl⟩))))⟩
    simp [ libesedb_long_value_initialize, allocation_trace, handle_calls, stored_handle,
      free_managed_handle, hflags, h1, h2, hm, h4, h5]
  · simp only [ResourcesAcquired, stored_handle, hm, h1, h2, ne_eq, not_false_eq_true, if_true,
      true_implies, true_and] at hsetup
    by_cases h3a : (env.libbfio_handle_clone file_io_handle).1 = 1
    swap
    · refine ⟨_, _, ?_, Or.inr (Or.inr (Or.inl ⟨rfl, hm, h3a, rfl⟩))⟩
      simp [ libesedb_long_value_initialize, hflags, h1, h2, hm, h3a]
    by_cases h3b : env.libbfio_handle_set_open_on_demand
        (env.libbfio_handle_clone file_io_handle).2 = 1
    swap
    · refine ⟨_, _, ?_, Or.inr (Or.inr (Or.inr (Or.inl ⟨rfl, hm, h3b, rfl⟩)))⟩
      simp [ libesedb_long_value_initialize, hflags, h1, h2, hm, h3a, h3b]
    by_cases h4 : env.libfdata_block_initialize = 1
    swap
    · refine ⟨_, _, ?_, Or.inr (Or.inr (Or.inr (Or.inr (Or.inl ⟨rfl, h4, fun _ => h3a, rfl⟩))))⟩
      simp [ libesedb_long_value_initialize, allocation_trace, handle_calls, stored_handle,
        free_managed_handle, hflags, h1, h2, hm, h3a, h3b, h4]
    have h5 : ¬ env.libfdata_cache_initialize
        defs.LIBESEDB_MAXIMUM_CACHE_ENTRIES_LONG_VALUES_DATA = 1 :=
      fun h5 => hsetup ⟨⟨h3a, h3b⟩, h4, h5⟩
    refine ⟨_, _, ?_,
      Or.inr (Or.inr (Or.inr (Or.inr (Or.inr ⟨rfl, h5, fun _ => h3a, rfl⟩))))⟩
    simp [ libesedb_long_value_initialize, allocation_trace, handle_calls, stored_handle,
      free_managed_handle, hflags, h1, h2, hm, h3a, h3b, h4, h5]

/-- The outcome when the resources are acquired and the root lookup does not return 1
(lines 244-270). -/
theorem initialize_root_lookup_failure (defs : Definitions) (env : Collaborators) (fuel : Nat)
    (file_io_handle : Option Nat) (key : List Nat) (flags : Nat)
    (hflags : flags &&& complement defs.LIBESEDB_ITEM_FLAG_MANAGED_FILE_IO_HANDLE = 0)
    (hres : ResourcesAcquired defs env file_io_handle flags)
    (hroot : (root_lookup defs env file_io_handle key flags).1 ≠ 1) :
    libesedb_long_value_initialize defs env fuel (some none) file_io_handle (some key) 4 flags
      = some ⟨-1, none, [liberror_code.LIBERROR_RUNTIME_ERROR_GET_FAILED],
          resources_trace defs env file_io_handle flags
            ++ [Call.libesedb_values_tree_get_value_by_key
                (stored_handle defs env file_io_handle flags) (key.take 4)
                defs.LIBESEDB_PAGE_KEY_FLAG_REVERSED_KEY
                (root_lookup defs env file_io_handle key flags).1]
            ++ free_all defs env flags (stored_handle defs env file_io_handle flags)⟩ := by
  obtain ⟨h1, h2, h3, h4, h5⟩ := hres
  unfold root_lookup at hroot ⊢
  by_cases hm : flags &&& defs.LIBESEDB_ITEM_FLAG_MANAGED_FILE_IO_HANDLE = 0
  · simp only [stored_handle, hm, ne_eq, not_true_eq_false, if_false] at hroot
    simp [ libesedb_long_value_initialize, resources_trace, allocation_trace, handle_calls,
      stored_handle, hflags, h1, h2, hm, h4, h5, hroot]
  · obtain ⟨h3a, h3b⟩ := h3 hm
    simp only [stored_handle, hm, ne_eq, not_false_eq_true, if_true] at hroot h3b
    simp [ libesedb_long_value_initialize, resources_trace, allocation_trace, handle_calls,
      stored_handle, hflags, h1, h2, hm, h3a, h3b, h4, h5, hroot]

/-- The outcome when the resources are acquired, the root lookup returns 1 and the root
read does not (lines 271-302). -/
theorem initialize_root_read_failure (defs : Definitions) (env : Collaborators) (fuel : Nat)
    (file_io_handle : Option Nat) (key : List Nat) (flags : Nat)
    (hflags : flags &&& complement defs.LIBESEDB_ITEM_FLAG_MANAGED_FILE_IO_HANDLE = 0)
    (hres : ResourcesAcquired defs env file_io_handle flags)
    (hroot : (root_lookup defs env file_io_handle key flags).1 = 1)
    (hread : root_read defs env file_io_handle key flags ≠ 1) :
    libesedb_long_value_initialize defs env fuel (some none) file_io_handle (some key) 4 flags
      = some ⟨-1, none, [liberror_code.LIBERROR_IO_ERROR_READ_FAILED],
          resources_trace defs env file_io_handle flags
            ++ [Call.libesedb_values_tree_get_value_by_key
                (stored_handle defs env file_io_handle flags) (key.take 4)
                defs.LIBESEDB_PAGE_KEY_FLAG_REVERSED_KEY 1,
              Call.libesedb_values_tree_value_read_long_value
                (stored_handle defs env file_io_handle flags)
                (root_read defs env file_io_handle key flags)]
            ++ free_all defs env flags (stored_handle defs env file_io_handle flags)⟩ := by
  obtain ⟨h1, h2, h3, h4, h5⟩ := hres
  unfold root_read at hread ⊢
  unfold root_lookup at hroot hread ⊢
  by_cases hm : flags &&& defs.LIBESEDB_ITEM_FLAG_MANAGED_FILE_IO_HANDLE = 0
  · simp only [stored_handle, hm, ne_eq, not_true_eq_false, if_false] at hroot hread
    simp [ libesedb_long_value_initialize, resources_trace, allocation_trace, handle_calls,
      stored_handle, hflags, h1, h2, hm, h4, h5, hroot, hread]
  · obtain ⟨h3a, h3b⟩ := h3 hm
    simp only [stored_handle, hm, ne_eq, not_false_eq_true, if_true] at hroot hread h3b
    simp [ libesedb_long_value_initialize, resources_trace, allocation_trace, handle_calls,
      stored_handle, hflags, h1, h2, hm, h3a, h3b, h4, h5, hroot, hread]

/-! ## The segment loop -/

theorem long_value_segment_key_length (key : List Nat) (offset : Nat) :
    (long_value_segment_key key offset).length = 8 := by
  simp [long_value_segment_key, byte_stream_copy_from_uint32_little_endian]

theorem free_managed_handle_acquired (defs : Definitions) (env : Collaborators) (flags : Nat)
    (handle : Option Nat) : acquired (free_managed_handle defs env flags handle) = [] := by
  unfold free_managed_handle acquired
  split <;> simp [Call.acquires]

theorem free_all_acquired (defs : Definitions) (env : Collaborators) (flags : Nat)
    (handle : Option Nat) : acquired (free_all defs env flags handle) = [] := by
  have h := free_managed_handle_acquired defs env flags handle
  unfold acquired at h ⊢
  simp [free_all, List.filterMap_append, h, Call.acquires]

theorem free_all_lookups (defs : Definitions) (env : Collaborators) (flags : Nat)
    (handle : Option Nat) : lookups (free_all defs env flags handle) = [] := by
  unfold free_all free_managed_handle lookups
  split <;> simp

theorem free_all_segment_reads (defs : Definitions) (env : Collaborators) (flags : Nat)
    (handle : Option Nat) : segment_reads (free_all defs env flags handle) = [] := by
  unfold free_all free_managed_handle segment_reads
  split <;> simp

theorem free_all_fails (defs : Definitions) (env : Collaborators) (flags : Nat)
    (handle : Option Nat) : ∀ c ∈ free_all defs env flags handle, ¬ c.fails := by
  unfold free_all free_managed_handle
  split <;> simp [Call.fails]

/-- The calls of the loop are lookups and segment reads, followed on a failure by the
release of everything. -/
theorem discover_segments_shape (defs : Definitions) (env : Collaborators) (flags : Nat)
    (handle : Option Nat) (key : List Nat) (fuel : Nat) :
    ∀ (offset : Nat) (d : Discovery),
      discover_segments defs env flags handle key fuel offset = some d →
      ∃ body, d.trace = body ++ (if d.error = none then [] else free_all defs env flags handle)
        ∧ acquired body = [] ∧ released body = [] ∧ handle_operations body = []
        ∧ handle_releases body = []
        ∧ (d.error = none → ∀ c ∈ body, ¬ c.fails)
        ∧ (d.error ≠ none → ∃ c ∈ body, c.fails) := by
  induction fuel with
  | zero => intro offset d h; simp [discover_segments] at h
  | succ n ih =>
    intro offset d h
    simp only [discover_segments] at h
    split_ifs at h with h1 h2 h3 h4
    · cases h
      refine ⟨[(Call.libesedb_values_tree_get_value_by_key handle (long_value_segment_key key offset) 0
        (env.libesedb_values_tree_get_value_by_key handle
          (long_value_segment_key key offset) 0).1)], by simp, ?_⟩
      simp [acquired, released, handle_operations, handle_releases, Call.acquires,
        Call.releases, Call.fails, long_value_segment_key_length, h1]
    · cases h
      refine ⟨[(Call.libesedb_values_tree_get_value_by_key handle (long_value_segment_key key offset) 0
        (env.libesedb_values_tree_get_value_by_key handle
          (long_value_segment_key key offset) 0).1), (Call.libesedb_values_tree_value_read_long_value_segment handle offset
        (env.libesedb_values_tree_value_read_long_value_segment
          (env.libesedb_values_tree_get_value_by_key handle
            (long_value_segment_key key offset) 0).2 handle offset).1)], by simp, ?_⟩
      simp [acquired, released, handle_operations, handle_releases, Call.acquires,
        Call.releases, Call.fails, long_value_segment_key_length, h3]
    · split at h
      · cases h
      · rename_i d2 hd2
        cases h
        obtain ⟨body, hb, ha, hr, ho, hl, hok, hbad⟩ := ih _ d2 hd2
        refine ⟨(Call.libesedb_values_tree_get_value_by_key handle (long_value_segment_key key offset) 0
        (env.libesedb_values_tree_get_value_by_key handle
          (long_value_segment_key key offset) 0).1) :: (Call.libesedb_values_tree_value_read_long_value_segment handle offset
        (env.libesedb_values_tree_value_read_long_value_segment
          (env.libesedb_values_tree_get_value_by_key handle
            (long_value_segment_key key offset) 0).2 handle offset).1) :: body, by simp [hb], ?_⟩
        simp only [acquired, released, handle_operations, handle_releases] at ha hr ho hl ⊢
        refine ⟨by simp [ha, Call.acquires], by simp [hr, Call.releases], by simp [ho],
          by simp [hl], ?_, ?_⟩
        · intro he c hc
          simp only [List.mem_cons] at hc
          rcases hc with rfl | rfl | hc
          · simp [Call.fails, long_value_segment_key_length, h1]
          · simpa [Call.fails] using h3
          · exact hok he c hc
        · intro he
          obtain ⟨c, hc, hf⟩ := hbad he
          exact ⟨c, by simp [hc], hf⟩
    · cases h
      refine ⟨[(Call.libesedb_values_tree_get_value_by_key handle (long_value_segment_key key offset) 0
        (env.libesedb_values_tree_get_value_by_key handle
          (long_value_segment_key key offset) 0).1), (Call.libesedb_values_tree_value_read_long_value_segment handle offset
        (env.libesedb_values_tree_value_read_long_value_segment
          (env.libesedb_values_tree_get_value_by_key handle
            (long_value_segment_key key offset) 0).2 handle offset).1)], by simp, ?_⟩
      simp only [not_not] at h3
      simp [acquired, released, handle_operations, handle_releases, Call.acquires,
        Call.releases, Call.fails, long_value_segment_key_length, h1, h3]
    · cases h
      refine ⟨[(Call.libesedb_values_tree_get_value_by_key handle (long_value_segment_key key offset) 0
        (env.libesedb_values_tree_get_value_by_key handle
          (long_value_segment_key key offset) 0).1)], by simp, ?_⟩
      simp [acquired, released, handle_operations, handle_releases, Call.acquires,
        Call.releases, Call.fails, long_value_segment_key_length, h1]

/-- One pass of the loop that goes on. -/
theorem discover_segments_step (defs : Definitions) (env : Collaborators) (flags : Nat)
    (handle : Option Nat) (key : List Nat) (fuel offset next : Nat)
    (hstep : SegmentStep env handle key offset next) :
    discover_segments defs env flags handle key (fuel + 1) offset
      = match discover_segments defs env flags handle key fuel next with
        | none => none
        | some d =>
          some ⟨d.error, ⟨offset, segment_data_size env handle key offset⟩ :: d.segments,
            Call.libesedb_values_tree_get_value_by_key handle
                (long_value_segment_key key offset) 0 1
              :: Call.libesedb_values_tree_value_read_long_value_segment handle offset 1
              :: d.trace⟩ := by
  obtain ⟨h1, h2, h3⟩ := hstep
  subst h3
  simp [discover_segments, h1, h2, next_segment_offset, segment_data_size, appended_segment]

/-- A failing pass ends the loop at once with an error. -/
theorem discover_segments_fail (defs : Definitions) (env : Collaborators) (flags : Nat)
    (handle : Option Nat) (key : List Nat) (fuel offset : Nat)
    (hfail : (env.libesedb_values_tree_get_value_by_key handle
          (long_value_segment_key key offset) 0).1 = -1
      ∨ ((env.libesedb_values_tree_get_value_by_key handle
          (long_value_segment_key key offset) 0).1 ≠ 0
        ∧ (env.libesedb_values_tree_value_read_long_value_segment
            (env.libesedb_values_tree_get_value_by_key handle
              (long_value_segment_key key offset) 0).2 handle offset).1 ≠ 1)) :
    ∃ d code, discover_segments defs env flags handle key (fuel + 1) offset = some d
      ∧ d.error = some code := by
  simp only [discover_segments]
  by_cases h1 : (env.libesedb_values_tree_get_value_by_key handle
      (long_value_segment_key key offset) 0).1 = -1
  · simp only [h1, if_true]
    exact ⟨_, _, rfl, rfl⟩
  · obtain ⟨h2, h3⟩ := hfail.resolve_left h1
    simp only [h1, h2, h3, if_false, if_true, ne_eq, not_false_eq_true]
    exact ⟨_, _, rfl, rfl⟩

/-- What the loop does from a reached offset, it does from offset 0 with more fuel. -/
theorem discover_segments_reach (defs : Definitions) (env : Collaborators) (flags : Nat)
    (handle : Option Nat) (key : List Nat) (offset : Nat)
    (hreach : Reached env handle key offset) :
    ∃ n, ∀ fuel d, discover_segments defs env flags handle key fuel offset = some d →
      ∃ d2, discover_segments defs env flags handle key (fuel + n) 0 = some d2
        ∧ d2.error = d.error := by
  have hall : ∀ a, Relation.ReflTransGen (SegmentStep env handle key) a offset →
      ∃ n, ∀ fuel d, discover_segments defs env flags handle key fuel offset = some d →
        ∃ d2, discover_segments defs env flags handle key (fuel + n) a = some d2
          ∧ d2.error = d.error := by
    intro a h
    induction h using Relation.ReflTransGen.head_induction_on with
    | refl => exact ⟨0, fun fuel d hd => ⟨d, hd, rfl⟩⟩
    | head hstep _ ih =>
      obtain ⟨n, hn⟩ := ih
      refine ⟨n + 1, fun fuel d hd => ?_⟩
      obtain ⟨d2, hd2, he⟩ := hn fuel d hd
      rw [← Nat.add_assoc, discover_segments_step defs env flags handle key _ _ _ hstep, hd2]
      exact ⟨_, rfl, he⟩
  exact hall 0 hreach

/-! ## Resources along the setup -/

theorem held_resources_nodup (defs : Definitions) (env : Collaborators)
    (file_io_handle : Option Nat) (flags : Nat) :
    (held_resources defs env file_io_handle flags).Nodup := by
  unfold held_resources
  split <;> simp

theorem acquired_allocation_trace (defs : Definitions) (env : Collaborators)
    (file_io_handle : Option Nat) (flags : Nat)
    (hclone : flags &&& defs.LIBESEDB_ITEM_FLAG_MANAGED_FILE_IO_HANDLE ≠ 0 →
      (env.libbfio_handle_clone file_io_handle).1 = 1) :
    acquired (allocation_trace defs env file_io_handle flags)
      = Resource.long_value ::
        (if flags &&& defs.LIBESEDB_ITEM_FLAG_MANAGED_FILE_IO_HANDLE ≠ 0 then
          [Resource.file_io_handle (stored_handle defs env file_io_handle flags)] else []) := by
  unfold allocation_trace handle_calls acquired stored_handle
  by_cases hm : flags &&& defs.LIBESEDB_ITEM_FLAG_MANAGED_FILE_IO_HANDLE = 0
  · simp [hm, Call.acquires]
  · simp [hm, hclone hm, Call.acquires]

theorem released_allocation_trace (defs : Definitions) (env : Collaborators)
    (file_io_handle : Option Nat) (flags : Nat) :
    released (allocation_trace defs env file_io_handle flags) = [] := by
  unfold allocation_trace handle_calls released
  split <;> simp [Call.releases]

theorem released_free_managed_handle (defs : Definitions) (env : Collaborators) (flags : Nat)
    (handle : Option Nat) :
    released (free_managed_handle defs env flags handle)
      = if flags &&& defs.LIBESEDB_ITEM_FLAG_MANAGED_FILE_IO_HANDLE ≠ 0 then
          [Resource.file_io_handle handle] else [] := by
  unfold free_managed_handle released
  split <;> simp [Call.releases]

theorem released_free_all (defs : Definitions) (env : Collaborators) (flags : Nat)
    (handle : Option Nat) :
    released (free_all defs env flags handle)
      = [Resource.data_cache, Resource.data_block]
        ++ (if flags &&& defs.LIBESEDB_ITEM_FLAG_MANAGED_FILE_IO_HANDLE ≠ 0 then
          [Resource.file_io_handle handle] else []) ++ [Resource.long_value] := by
  have h := released_free_managed_handle defs env flags handle
  unfold released at h ⊢
  simp [free_all, List.filterMap_append, h, Call.releases]

theorem setup_trace_eq (defs : Definitions) (env : Collaborators) (file_io_handle : Option Nat)
    (key : List Nat) (flags : Nat) :
    setup_trace defs env file_io_handle key flags
      = resources_trace defs env file_io_handle flags
        ++ [Call.libesedb_values_tree_get_value_by_key
            (stored_handle defs env file_io_handle flags)
            (key.take 4) defs.LIBESEDB_PAGE_KEY_FLAG_REVERSED_KEY 1,
          Call.libesedb_values_tree_value_read_long_value
            (stored_handle defs env file_io_handle flags) 1] := rfl

theorem allocation_trace_fails (defs : Definitions) (env : Collaborators)
    (file_io_handle : Option Nat) (flags : Nat)
    (hclone : flags &&& defs.LIBESEDB_ITEM_FLAG_MANAGED_FILE_IO_HANDLE ≠ 0 →
      (env.libbfio_handle_clone file_io_handle).1 = 1
      ∧ env.libbfio_handle_set_open_on_demand (stored_handle defs env file_io_handle flags) = 1) :
    ∀ c ∈ allocation_trace defs env file_io_handle flags, ¬ c.fails := by
  unfold allocation_trace handle_calls
  by_cases hm : flags &&& defs.LIBESEDB_ITEM_FLAG_MANAGED_FILE_IO_HANDLE = 0
  · simp [hm, Call.fails]
  · have h := hclone hm
    simp only [stored_handle, hm, ne_eq, not_false_eq_true, if_true] at h
    simp [hm, Call.fails, h.1, h.2]

theorem acquired_append (a b : List Call) : acquired (a ++ b) = acquired a ++ acquired b := by
  simp [acquired, List.filterMap_append]

theorem released_append (a b : List Call) : released (a ++ b) = released a ++ released b := by
  simp [released, List.filterMap_append]

theorem acquired_resources_trace (defs : Definitions) (env : Collaborators)
    (file_io_handle : Option Nat) (flags : Nat)
    (hclone : flags &&& defs.LIBESEDB_ITEM_FLAG_MANAGED_FILE_IO_HANDLE ≠ 0 →
      (env.libbfio_handle_clone file_io_handle).1 = 1) :
    acquired (resources_trace defs env file_io_handle flags)
      = held_resources defs env file_io_handle flags := by
  rw [resources_trace_eq, acquired_append,
    acquired_allocation_trace defs env file_io_handle flags hclone]
  simp [held_resources, acquired, Call.acquires]

theorem released_resources_trace (defs : Definitions) (env : Collaborators)
    (file_io_handle : Option Nat) (flags : Nat) :
    released (resources_trace defs env file_io_handle flags) = [] := by
  rw [resources_trace_eq, released_append, released_allocation_trace]
  simp [released, Call.releases]

theorem resources_trace_fails (defs : Definitions) (env : Collaborators)
    (file_io_handle : Option Nat) (flags : Nat)
    (hres : ResourcesAcquired defs env file_io_handle flags) :
    ∀ c ∈ resources_trace defs env file_io_handle flags, ¬ c.fails := by
  intro c hc
  rw [resources_trace_eq] at hc
  simp only [List.mem_append, List.mem_cons, List.mem_singleton, List.not_mem_nil,
    or_false] at hc
  rcases hc with hc | rfl | rfl
  · exact allocation_trace_fails defs env file_io_handle flags hres.2.2.1 c hc
  · simp [Call.fails]
  · simp [Call.fails]

theorem released_free_all_eq (defs : Definitions) (env : Collaborators)
    (file_io_handle : Option Nat) (flags : Nat) :
    released (free_all defs env flags (stored_handle defs env file_io_handle flags))
      = (held_resources defs env file_io_handle flags).reverse := by
  rw [released_free_all]
  unfold held_resources
  split <;> simp

theorem min_four_ne_eight (n : Nat) : ¬ (min 4 n = 8) := by
  omega

/-! ## C5: atomic construction -/

/-- C5: construction is atomic.  For a valid call (a slot holding `NULL`, a key of size 4,
supported flags): a failing step before the segment loop makes the call return -1 whatever
the fuel; a lookup that returns -1, or a read that does not return 1 of a segment found, in
a pass that the loop makes, makes the call return -1 with enough fuel; and whenever the call
returns, it returns 1 or -1, it returns -1 exactly when one of the collaborator calls of its
trace failed, and then an error is set, the slot is left `NULL`, and the resources released
along the trace are the resources acquired along it, in the reverse order, each one once. -/
theorem C5_construction_is_atomic (defs : Definitions) (env : Collaborators) (fuel : Nat)
    (file_io_handle : Option Nat) (key : List Nat) (flags : Nat)
    (hflags : flags &&& complement defs.LIBESEDB_ITEM_FLAG_MANAGED_FILE_IO_HANDLE = 0) :
    (¬ SetupSucceeds defs env file_io_handle key flags →
      ∃ r, libesedb_long_value_initialize defs env fuel (some none) file_io_handle (some key)
        4 flags = some r ∧ r.result = -1)
    ∧ (SetupSucceeds defs env file_io_handle key flags →
      ∀ offset, Reached env (stored_handle defs env file_io_handle flags) key offset →
        ((env.libesedb_values_tree_get_value_by_key
              (stored_handle defs env file_io_handle flags)
              (long_value_segment_key key offset) 0).1 = -1
          ∨ ((env.libesedb_values_tree_get_value_by_key
              (stored_handle defs env file_io_handle flags)
              (long_value_segment_key key offset) 0).1 ≠ 0
            ∧ (env.libesedb_values_tree_value_read_long_value_segment
                (env.libesedb_values_tree_get_value_by_key
                  (stored_handle defs env file_io_handle flags)
                  (long_value_segment_key key offset) 0).2
                (stored_handle defs env file_io_handle flags) offset).1 ≠ 1)) →
        ∃ enough r, libesedb_long_value_initialize defs env enough (some none) file_io_handle
          (some key) 4 flags = some r ∧ r.result = -1)
    ∧ ∀ r, libesedb_long_value_initialize defs env fuel (some none) file_io_handle (some key)
        4 flags = some r →
      (r.result = 1 ∨ r.result = -1)
      ∧ (r.result = -1 ↔ ∃ c ∈ r.trace, c.fails)
      ∧ (r.result = -1 → r.error ≠ [] ∧ r.long_value = none
          ∧ released r.trace = (acquired r.trace).reverse ∧ (acquired r.trace).Nodup) := by
  have hmain : ∀ r, libesedb_long_value_initialize defs env fuel (some none) file_io_handle
      (some key) 4 flags = some r →
      (¬ SetupSucceeds defs env file_io_handle key flags → r.result = -1)
      ∧ (r.result = 1 ∨ r.result = -1)
      ∧ (r.result = -1 ↔ ∃ c ∈ r.trace, c.fails)
      ∧ (r.result = -1 → r.error ≠ [] ∧ r.long_value = none
          ∧ released r.trace = (acquired r.trace).reverse ∧ (acquired r.trace).Nodup) := by
    intro r hcall
    by_cases hres : ResourcesAcquired defs env file_io_handle flags
    swap
    · obtain ⟨code, trace, h, hcases⟩ :=
        initialize_resources_failure defs env fuel file_io_handle key flags hflags hres
      rw [h] at hcall
      cases hcall
      refine ⟨fun _ => rfl, Or.inr rfl, ⟨fun _ => ?_, fun _ => rfl⟩,
        fun _ => ⟨by simp, rfl, ?_⟩⟩
      · rcases hcases with ⟨-, rfl⟩ | ⟨-, rfl⟩ | ⟨-, -, hf, rfl⟩ | ⟨-, -, hf, rfl⟩
          | ⟨-, hf, -, rfl⟩ | ⟨-, hf, -, rfl⟩
        · simp [Call.fails]
        · simp [Call.fails]
        · simp [Call.fails, hf]
        · simp [Call.fails, hf]
        · exact ⟨Call.libfdata_block_initialize _, by simp, hf⟩
        · exact ⟨Call.libfdata_cache_initialize
            defs.LIBESEDB_MAXIMUM_CACHE_ENTRIES_LONG_VALUES_DATA _, by simp, hf⟩
      · rcases hcases with ⟨-, rfl⟩ | ⟨-, rfl⟩ | ⟨-, -, hf, rfl⟩ | ⟨-, -, hf, rfl⟩
          | ⟨-, hf, hc, rfl⟩ | ⟨-, hf, hc, rfl⟩
        · simp [acquired, released, Call.acquires, Call.releases]
        · simp [acquired, released, Call.acquires, Call.releases]
        · simp [acquired, released, Call.acquires, Call.releases, hf]
        · simp [acquired, released, Call.acquires, Call.releases]
        · simp only [acquired_append, released_append, released_allocation_trace,
            acquired_allocation_trace defs env file_io_handle flags hc,
            released_free_managed_handle, free_managed_handle_acquired]
          split <;> simp [acquired, released, Call.acquires, Call.releases, hf]
        · simp only [acquired_append, released_append, released_allocation_trace,
            acquired_allocation_trace defs env file_io_handle flags hc,
            released_free_managed_handle, free_managed_handle_acquired]
          split <;> simp [acquired, released, Call.acquires, Call.releases, hf]
    have hacq := acquired_resources_trace defs env file_io_handle flags
      (fun hm => (hres.2.2.1 hm).1)
    have hrel := released_resources_trace defs env file_io_handle flags
    have hok := resources_trace_fails defs env file_io_handle flags hres
    have hnodup := held_resources_nodup defs env file_io_handle flags
    have hfree := released_free_all_eq defs env file_io_handle flags
    by_cases hroot : (root_lookup defs env file_io_handle key flags).1 = 1
    swap
    · rw [initialize_root_lookup_failure defs env fuel file_io_handle key flags hflags hres
        hroot] at hcall
      cases hcall
      refine ⟨fun _ => rfl, Or.inr rfl, ⟨fun _ => ?_, fun _ => rfl⟩,
        fun _ => ⟨by simp, rfl, ?_, ?_⟩⟩
      · exact ⟨Call.libesedb_values_tree_get_value_by_key
          (stored_handle defs env file_io_handle flags) (key.take 4)
          defs.LIBESEDB_PAGE_KEY_FLAG_REVERSED_KEY
          (root_lookup defs env file_io_handle key flags).1, by simp,
          by simpa [Call.fails, min_four_ne_eight] using hroot⟩
      · simp only [acquired_append, released_append, hacq, hrel, hfree, free_all_acquired]
        simp [acquired, released, Call.acquires, Call.releases]
      · simp only [acquired_append, hacq, free_all_acquired]
        simpa [acquired, Call.acquires] using hnodup
    by_cases hread : root_read defs env file_io_handle key flags = 1
    swap
    · rw [initialize_root_read_failure defs env fuel file_io_handle key flags hflags hres
        hroot hread] at hcall
      cases hcall
      refine ⟨fun _ => rfl, Or.inr rfl, ⟨fun _ => ?_, fun _ => rfl⟩,
        fun _ => ⟨by simp, rfl, ?_, ?_⟩⟩
      · exact ⟨Call.libesedb_values_tree_value_read_long_value
          (stored_handle defs env file_io_handle flags)
          (root_read defs env file_io_handle key flags), by simp, hread⟩
      · simp only [acquired_append, released_append, hacq, hrel, hfree, free_all_acquired]
        simp [acquired, released, Call.acquires, Call.releases]
      · simp only [acquired_append, hacq, free_all_acquired]
        simpa [acquired, Call.acquires] using hnodup
    have hsetup : SetupSucceeds defs env file_io_handle key flags := ⟨hres, hroot, hread⟩
    rw [initialize_of_setup defs env fuel file_io_handle key flags hflags hsetup] at hcall
    cases hd : discover_segments defs env flags (stored_handle defs env file_io_handle flags)
        key fuel 0 with
    | none => simp [hd] at hcall
    | some d =>
      obtain ⟨body, hb, ha, hr, -, -, hgood, hbad⟩ :=
        discover_segments_shape defs env flags _ key fuel 0 d hd
      simp only [hd] at hcall
      cases he : d.error with
      | some code =>
        simp only [he] at hcall
        cases hcall
        simp only [he, reduceCtorEq, if_false] at hb
        obtain ⟨c, hc, hf⟩ := hbad (by simp [he])
        refine ⟨fun _ => rfl, Or.inr rfl,
          ⟨fun _ => ⟨c, by simp [hb, hc], hf⟩, fun _ => rfl⟩, fun _ => ?_⟩
        refine ⟨by simp, rfl, ?_, ?_⟩
        · simp only [setup_trace_eq, hb, acquired_append, released_append, hacq, hrel, ha, hr,
            hfree, free_all_acquired]
          simp [acquired, released, Call.acquires, Call.releases]
        · simp only [setup_trace_eq, hb, acquired_append, hacq, ha, free_all_acquired]
          simpa [acquired, Call.acquires] using hnodup
      | none =>
        simp only [he] at hcall
        cases hcall
        simp only [he, if_true, List.append_nil] at hb
        refine ⟨fun h => absurd hsetup h, Or.inl rfl, ⟨fun h => by simp at h, ?_⟩,
          fun h => by simp at h⟩
        rintro ⟨c, hc, hf⟩
        exfalso
        simp only [setup_trace_eq, List.mem_append, List.mem_cons, List.mem_singleton,
          List.not_mem_nil, or_false] at hc
        rcases hc with (hc | rfl | rfl) | hc
        · exact hok c hc hf
        · simp [Call.fails, min_four_ne_eight] at hf
        · simp [Call.fails] at hf
        · exact hgood he c (by simpa [hb] using hc) hf
  refine ⟨fun hsetup => ?_, fun hsetup offset hreach hfail => ?_,
    fun r hcall => (hmain r hcall).2⟩
  swap
  · obtain ⟨d, code, hd, he⟩ := discover_segments_fail defs env flags
      (stored_handle defs env file_io_handle flags) key 0 offset hfail
    obtain ⟨n, hn⟩ := discover_segments_reach defs env flags
      (stored_handle defs env file_io_handle flags) key offset hreach
    obtain ⟨d2, hd2, he2⟩ := hn 1 d hd
    refine ⟨1 + n, ?_⟩
    rw [initialize_of_setup defs env _ file_io_handle key flags hflags hsetup, hd2]
    simp only [he2, he]
    exact ⟨_, rfl, rfl⟩
  by_cases hres : ResourcesAcquired defs env file_io_handle flags
  swap
  · obtain ⟨code, trace, h, -⟩ :=
      initialize_resources_failure defs env fuel file_io_handle key flags hflags hres
    exact ⟨_, h, rfl⟩
  by_cases hroot : (root_lookup defs env file_io_handle key flags).1 = 1
  swap
  · exact ⟨_, initialize_root_lookup_failure defs env fuel file_io_handle key flags hflags hres
      hroot, rfl⟩
  by_cases hread : root_read defs env file_io_handle key flags = 1
  swap
  · exact ⟨_, initialize_root_read_failure defs env fuel file_io_handle key flags hflags hres
      hroot hread, rfl⟩
  exact absurd ⟨hres, hroot, hread⟩ hsetup

/-- Witness of C5: in the managed mode, with the read of the second segment failing, the
call returns -1, leaves the slot `NULL` and releases the data cache, the data block, the
clone and the long value, the reverse of their acquisition. -/
theorem C5_construction_is_atomic_witness :
    ∃ r, libesedb_long_value_initialize example_definitions failing_read_store 5 (some none)
        (some 7) (some [1, 0, 0, 0]) 4 1 = some r
      ∧ r.result = -1 ∧ r.long_value = none
      ∧ acquired r.trace = [Resource.long_value, Resource.file_io_handle (some 107),
          Resource.data_block, Resource.data_cache]
      ∧ released r.trace = (acquired r.trace).reverse := by
  have h := (C5_construction_is_atomic example_definitions failing_read_store 5 (some 7)
    [1, 0, 0, 0] 1 (by decide)).2.2
  exact ⟨_, rfl, rfl, rfl, rfl, ((h _ rfl).2.2 rfl).2.2.1⟩

/-! ## C3: argument validation -/

theorem initialize_error_supported (defs : Definitions) (env : Collaborators) (fuel : Nat)
    (file_io_handle : Option Nat) (key : List Nat) (flags : Nat)
    (hflags : flags &&& complement defs.LIBESEDB_ITEM_FLAG_MANAGED_FILE_IO_HANDLE = 0)
    (r : Outcome)
    (hcall : libesedb_long_value_initialize defs env fuel (some none) file_io_handle (some key)
      4 flags = some r) :
    r.error ≠ [liberror_code.LIBERROR_RUNTIME_ERROR_UNSUPPORTED_VALUE] := by
  by_cases hres : ResourcesAcquired defs env file_io_handle flags
  swap
  · obtain ⟨code, trace, h, hcases⟩ :=
      initialize_resources_failure defs env fuel file_io_handle key flags hflags hres
    rw [h] at hcall
    cases hcall
    rcases hcases with ⟨rfl, -⟩ | ⟨rfl, -⟩ | ⟨rfl, -⟩ | ⟨rfl, -⟩ | ⟨rfl, -⟩ | ⟨rfl, -⟩ <;> simp
  by_cases hroot : (root_lookup defs env file_io_handle key flags).1 = 1
  swap
  · rw [initialize_root_lookup_failure defs env fuel file_io_handle key flags hflags hres
      hroot] at hcall
    cases hcall
    simp
  by_cases hread : root_read defs env file_io_handle key flags = 1
  swap
  · rw [initialize_root_read_failure defs env fuel file_io_handle key flags hflags hres
      hroot hread] at hcall
    cases hcall
    simp
  rw [initialize_of_setup defs env fuel file_io_handle key flags hflags
    ⟨hres, hroot, hread⟩] at hcall
  cases hd : discover_segments defs env flags (stored_handle defs env file_io_handle flags)
      key fuel 0 with
  | none => simp [hd] at hcall
  | some d =>
    simp only [hd] at hcall
    cases he : d.error with
    | some code =>
      simp only [he] at hcall
      cases hcall
      rcases discover_segments_error defs env flags _ key fuel 0 d code hd he with rfl | rfl
        <;> simp
    | none =>
      simp only [he] at hcall
      cases hcall
      simp

/-- C3: argument validation.  With a slot and a key buffer given, for `uint8_t` flags and
the managed flag a single bit of them: when the key size is not 4, or the flags have a bit
set that the managed flag has not, the call returns -1 with the unsupported-value error,
calls no collaborator (no allocation, no store lookup) and leaves the slot as it was,
whatever the fuel; and the call never sets the unsupported-value error exactly when the key
size is 4 and the flags are 0 or the managed flag. -/
theorem C3_argument_validation (defs : Definitions) (env : Collaborators) (fuel : Nat)
    (slot : Option libesedb_internal_long_value_t) (file_io_handle : Option Nat)
    (key : List Nat) (key_size flags : Nat) (hflags : flags < 256)
    (hbit : ∃ k < 8, defs.LIBESEDB_ITEM_FLAG_MANAGED_FILE_IO_HANDLE = 2 ^ k) :
    ((key_size ≠ 4 ∨ ∃ i, flags.testBit i = true
          ∧ defs.LIBESEDB_ITEM_FLAG_MANAGED_FILE_IO_HANDLE.testBit i = false) →
      libesedb_long_value_initialize defs env fuel (some slot) file_io_handle (some key)
          key_size flags
        = some ⟨-1, slot, [liberror_code.LIBERROR_RUNTIME_ERROR_UNSUPPORTED_VALUE], []⟩)
    ∧ ((key_size = 4 ∧ (flags = 0 ∨ flags = defs.LIBESEDB_ITEM_FLAG_MANAGED_FILE_IO_HANDLE)) ↔
      ∀ r, libesedb_long_value_initialize defs env fuel (some slot) file_io_handle (some key)
          key_size flags = some r →
        r.error ≠ [liberror_code.LIBERROR_RUNTIME_ERROR_UNSUPPORTED_VALUE]) := by
  have hbits := land_complement_ne_zero_iff flags defs.LIBESEDB_ITEM_FLAG_MANAGED_FILE_IO_HANDLE
    (lt_trans hflags (by norm_num))
  have hfin : ∀ k < 8, ∀ f < 256, (f &&& complement (2 ^ k) = 0 ↔ f = 0 ∨ f = 2 ^ k) := by
    set_option maxRecDepth 100000 in decide
  obtain ⟨k, hk, hm⟩ := hbit
  have hvalid := hfin k hk flags hflags
  rw [← hm] at hvalid
  have hfail : (key_size ≠ 4
        ∨ flags &&& complement defs.LIBESEDB_ITEM_FLAG_MANAGED_FILE_IO_HANDLE ≠ 0) →
      libesedb_long_value_initialize defs env fuel (some slot) file_io_handle (some key)
          key_size flags
        = some ⟨-1, slot, [liberror_code.LIBERROR_RUNTIME_ERROR_UNSUPPORTED_VALUE], []⟩ := by
    intro h
    simp only [ libesedb_long_value_initialize]
    by_cases h4 : key_size = 4
    · have h5 := h.resolve_left (fun hn => hn h4)
      simp [h4, h5]
    · simp [h4]
  refine ⟨fun h => hfail (h.imp id hbits.mpr), ?_, ?_⟩
  · rintro ⟨h4, hf⟩ r hr
    have h0 := hvalid.mpr hf
    subst h4
    cases slot with
    | some v =>
      simp only [ libesedb_long_value_initialize, h0] at hr
      simp only [ne_eq, not_true_eq_false, if_false, Option.some.injEq] at hr
      subst hr
      simp
    | none => exact initialize_error_supported defs env fuel file_io_handle key flags h0 r hr
  · intro h
    by_contra hne
    have hcases : key_size ≠ 4
        ∨ flags &&& complement defs.LIBESEDB_ITEM_FLAG_MANAGED_FILE_IO_HANDLE ≠ 0 := by
      by_cases h4 : key_size = 4
      · right
        intro h0
        exact hne ⟨h4, hvalid.mp h0⟩
      · exact Or.inl h4
    exact h _ (hfail hcases) rfl

/-- Witness of C3: with the managed flag 0x01, a key size of 5, or the flags 0x02, gives the
unsupported-value error with no collaborator call. -/
theorem C3_argument_validation_witness :
    libesedb_long_value_initialize example_definitions scenario_store 5 (some none) (some 7)
        (some [1, 0, 0, 0]) 4 2
      = some ⟨-1, none, [liberror_code.LIBERROR_RUNTIME_ERROR_UNSUPPORTED_VALUE], []⟩ :=
  (C3_argument_validation example_definitions scenario_store 5 none (some 7) [1, 0, 0, 0] 4 2
    (by decide) ⟨0, by decide, rfl⟩).1 (Or.inr ⟨1, by decide, by decide⟩)

/-! ## C6 and C8: release -/

/-- C6: best-effort release.  For every long value (a non-`NULL` one) and whatever each
cleanup step returns: the trace of `libesedb_long_value_free` is, in the managed mode with a
handle, the close and then the release of the handle, and in every mode the release of the
data block, of the data cache and of the long value itself; so the last three are always
executed and the handle is released whether or not the close failed.  The call returns 1 or
-1, and 1 exactly when every step of the trace succeeded (exactly when it set no error);
the slot is left `NULL`. -/
theorem C6_free_attempts_every_step (defs : Definitions) (env : Collaborators)
    (internal_long_value : libesedb_internal_long_value_t) :
    (libesedb_long_value_free defs env (some (some internal_long_value))).trace
      = (if internal_long_value.flags &&& defs.LIBESEDB_ITEM_FLAG_MANAGED_FILE_IO_HANDLE ≠ 0
            ∧ internal_long_value.file_io_handle ≠ none then
          [Call.libbfio_handle_close internal_long_value.file_io_handle
              (env.libbfio_handle_close internal_long_value.file_io_handle),
            Call.libbfio_handle_free internal_long_value.file_io_handle
              (env.libbfio_handle_free internal_long_value.file_io_handle)]
          else [])
        ++ [Call.libfdata_block_free env.libfdata_block_free,
          Call.libfdata_cache_free env.libfdata_cache_free, Call.memory_free]
    ∧ ((libesedb_long_value_free defs env (some (some internal_long_value))).result = 1
      ∨ (libesedb_long_value_free defs env (some (some internal_long_value))).result = -1)
    ∧ ((libesedb_long_value_free defs env (some (some internal_long_value))).result = 1 ↔
      ∀ c ∈ (libesedb_long_value_free defs env (some (some internal_long_value))).trace,
        c.succeeds)
    ∧ ((libesedb_long_value_free defs env (some (some internal_long_value))).result = 1 ↔
      (libesedb_long_value_free defs env (some (some internal_long_value))).error = [])
    ∧ (libesedb_long_value_free defs env (some (some internal_long_value))).long_value
      = none := by
  simp only [libesedb_long_value_free]
  by_cases hm : internal_long_value.flags &&& defs.LIBESEDB_ITEM_FLAG_MANAGED_FILE_IO_HANDLE ≠ 0
      ∧ internal_long_value.file_io_handle ≠ none
  · by_cases h1 : env.libbfio_handle_close internal_long_value.file_io_handle = 0 <;>
    by_cases h2 : env.libbfio_handle_free internal_long_value.file_io_handle = 1 <;>
    by_cases h3 : env.libfdata_block_free = 1 <;>
    by_cases h4 : env.libfdata_cache_free = 1 <;>
    simp [hm, h1, h2, h3, h4, Call.succeeds]
  · by_cases h3 : env.libfdata_block_free = 1 <;>
    by_cases h4 : env.libfdata_cache_free = 1 <;>
    simp [hm, h3, h4, Call.succeeds]

/-- C8: release is idempotent.  Whatever the slot holds, `libesedb_long_value_free` leaves
it `NULL`; and called again on that slot it returns 1, sets no error, calls no collaborator
and leaves the slot `NULL`. -/
theorem C8_free_is_idempotent (defs : Definitions) (env : Collaborators)
    (slot : Option libesedb_internal_long_value_t) :
    (libesedb_long_value_free defs env (some slot)).long_value = none
    ∧ libesedb_long_value_free defs env
        (some (libesedb_long_value_free defs env (some slot)).long_value)
      = ⟨1, none, [], []⟩ := by
  cases slot <;> simp [libesedb_long_value_free]

/-! ## C7: the ownership mode -/

theorem handle_operations_append (a b : List Call) :
    handle_operations (a ++ b) = handle_operations a ++ handle_operations b := by
  simp [handle_operations, List.filterMap_append]

theorem handle_releases_append (a b : List Call) :
    handle_releases (a ++ b) = handle_releases a ++ handle_releases b := by
  simp [handle_releases, List.filterMap_append]

theorem handle_operations_allocation_trace (defs : Definitions) (env : Collaborators)
    (file_io_handle : Option Nat) (flags : Nat) :
    handle_operations (allocation_trace defs env file_io_handle flags)
      = if flags &&& defs.LIBESEDB_ITEM_FLAG_MANAGED_FILE_IO_HANDLE ≠ 0 then [file_io_handle]
        else [] := by
  unfold allocation_trace handle_calls handle_operations
  split <;> simp

theorem handle_releases_allocation_trace (defs : Definitions) (env : Collaborators)
    (file_io_handle : Option Nat) (flags : Nat) :
    handle_releases (allocation_trace defs env file_io_handle flags) = [] := by
  unfold allocation_trace handle_calls handle_releases
  split <;> simp

theorem handle_operations_free_managed_handle (defs : Definitions) (env : Collaborators)
    (flags : Nat) (handle : Option Nat) :
    handle_operations (free_managed_handle defs env flags handle)
      = if flags &&& defs.LIBESEDB_ITEM_FLAG_MANAGED_FILE_IO_HANDLE ≠ 0 then [handle]
        else [] := by
  unfold free_managed_handle handle_operations
  split <;> simp

theorem handle_releases_free_managed_handle (defs : Definitions) (env : Collaborators)
    (flags : Nat) (handle : Option Nat) :
    handle_releases (free_managed_handle defs env flags handle)
      = if flags &&& defs.LIBESEDB_ITEM_FLAG_MANAGED_FILE_IO_HANDLE ≠ 0 then [handle]
        else [] := by
  unfold free_managed_handle handle_releases
  split <;> simp

theorem handle_operations_free_all (defs : Definitions) (env : Collaborators)
    (flags : Nat) (handle : Option Nat) :
    handle_operations (free_all defs env flags handle)
      = if flags &&& defs.LIBESEDB_ITEM_FLAG_MANAGED_FILE_IO_HANDLE ≠ 0 then [handle]
        else [] := by
  unfold free_all
  rw [handle_operations_append, handle_operations_append,
    handle_operations_free_managed_handle]
  split <;> simp [handle_operations]

theorem handle_releases_free_all (defs : Definitions) (env : Collaborators)
    (flags : Nat) (handle : Option Nat) :
    handle_releases (free_all defs env flags handle)
      = if flags &&& defs.LIBESEDB_ITEM_FLAG_MANAGED_FILE_IO_HANDLE ≠ 0 then [handle]
        else [] := by
  unfold free_all
  rw [handle_releases_append, handle_releases_append, handle_releases_free_managed_handle]
  split <;> simp [handle_releases]

/-- The handle calls of a valid call that returns: in the borrowing mode none; in every
mode the only handle closed or released is the stored one; and a long value is left in the
slot only by a call that returns 1, with the stored handle and the flags. -/
theorem initialize_handle_trace (defs : Definitions) (env : Collaborators) (fuel : Nat)
    (file_io_handle : Option Nat) (key : List Nat) (flags : Nat)
    (hflags : flags &&& complement defs.LIBESEDB_ITEM_FLAG_MANAGED_FILE_IO_HANDLE = 0)
    (r : Outcome)
    (hcall : libesedb_long_value_initialize defs env fuel (some none) file_io_handle (some key)
      4 flags = some r) :
    (flags &&& defs.LIBESEDB_ITEM_FLAG_MANAGED_FILE_IO_HANDLE = 0 →
      handle_operations r.trace = [])
    ∧ (∀ h ∈ handle_releases r.trace, h = stored_handle defs env file_io_handle flags)
    ∧ (∀ v, r.long_value = some v →
        r.result = 1 ∧ v.file_io_handle = stored_handle defs env file_io_handle flags
          ∧ v.flags = flags ∧ handle_releases r.trace = []) := by
  by_cases hres : ResourcesAcquired defs env file_io_handle flags
  swap
  · obtain ⟨code, trace, h, hcases⟩ :=
      initialize_resources_failure defs env fuel file_io_handle key flags hflags hres
    rw [h] at hcall
    cases hcall
    refine ⟨fun hm => ?_, ?_, fun v hv => by simp at hv⟩
    · rcases hcases with ⟨-, rfl⟩ | ⟨-, rfl⟩ | ⟨-, hm2, -, rfl⟩ | ⟨-, hm2, -, rfl⟩
        | ⟨-, -, -, rfl⟩ | ⟨-, -, -, rfl⟩
      · simp [handle_operations]
      · simp [handle_operations]
      · exact absurd hm hm2
      · exact absurd hm hm2
      · simp only [handle_operations_append, handle_operations_allocation_trace,
          handle_operations_free_managed_handle, hm, ne_eq, not_true_eq_false, if_false]
        simp [handle_operations]
      · simp only [handle_operations_append, handle_operations_allocation_trace,
          handle_operations_free_managed_handle, hm, ne_eq, not_true_eq_false, if_false]
        simp [handle_operations]
    · rcases hcases with ⟨-, rfl⟩ | ⟨-, rfl⟩ | ⟨-, hm2, -, rfl⟩ | ⟨-, hm2, -, rfl⟩
        | ⟨-, -, -, rfl⟩ | ⟨-, -, -, rfl⟩
      · simp [handle_releases]
      · simp [handle_releases]
      · simp [handle_releases]
      · simp [handle_releases, stored_handle, hm2]
      · simp only [handle_releases_append, handle_releases_allocation_trace,
          handle_releases_free_managed_handle]
        split <;> simp [handle_releases]
      · simp only [handle_releases_append, handle_releases_allocation_trace,
          handle_releases_free_managed_handle]
        split <;> simp [handle_releases]
  have hops : flags &&& defs.LIBESEDB_ITEM_FLAG_MANAGED_FILE_IO_HANDLE = 0 →
      handle_operations (resources_trace defs env file_io_handle flags) = [] := by
    intro hm
    simp only [resources_trace_eq, handle_operations_append,
        handle_operations_allocation_trace, hm, ne_eq, not_true_eq_false, if_false]
    simp [handle_operations]
  have hrels : handle_releases (resources_trace defs env file_io_handle flags) = [] := by
    simp only [resources_trace_eq, handle_releases_append, handle_releases_allocation_trace]
    simp [handle_releases]
  by_cases hroot : (root_lookup defs env file_io_handle key flags).1 = 1
  swap
  · rw [initialize_root_lookup_failure defs env fuel file_io_handle key flags hflags hres
      hroot] at hcall
    cases hcall
    refine ⟨fun hm => ?_, ?_, fun v hv => by simp at hv⟩
    · simp only [handle_operations_append, hops hm, handle_operations_free_all, hm, ne_eq,
        not_true_eq_false, if_false]
      simp [handle_operations]
    · simp only [handle_releases_append, hrels, handle_releases_free_all]
      split <;> simp [handle_releases]
  by_cases hread : root_read defs env file_io_handle key flags = 1
  swap
  · rw [initialize_root_read_failure defs env fuel file_io_handle key flags hflags hres
      hroot hread] at hcall
    cases hcall
    refine ⟨fun hm => ?_, ?_, fun v hv => by simp at hv⟩
    · simp only [handle_operations_append, hops hm, handle_operations_free_all, hm, ne_eq,
        not_true_eq_false, if_false]
      simp [handle_operations]
    · simp only [handle_releases_append, hrels, handle_releases_free_all]
      split <;> simp [handle_releases]
  rw [initialize_of_setup defs env fuel file_io_handle key flags hflags
    ⟨hres, hroot, hread⟩] at hcall
  cases hd : discover_segments defs env flags (stored_handle defs env file_io_handle flags)
      key fuel 0 with
  | none => simp [hd] at hcall
  | some d =>
    obtain ⟨body, hb, -, -, ho, hl, -, -⟩ :=
      discover_segments_shape defs env flags _ key fuel 0 d hd
    simp only [hd] at hcall
    cases he : d.error with
    | some code =>
      simp only [he] at hcall
      cases hcall
      simp only [he, reduceCtorEq, if_false] at hb
      refine ⟨fun hm => ?_, ?_, fun v hv => by simp at hv⟩
      · simp only [setup_trace_eq, hb, handle_operations_append, hops hm, ho,
          handle_operations_free_all, hm, ne_eq, not_true_eq_false, if_false]
        simp [handle_operations]
      · simp only [setup_trace_eq, hb, handle_releases_append, hrels, hl,
          handle_releases_free_all]
        split <;> simp [handle_releases]
    | none =>
      simp only [he] at hcall
      cases hcall
      simp only [he, if_true, List.append_nil] at hb
      have hnone : handle_releases (setup_trace defs env file_io_handle key flags ++ d.trace)
          = [] := by
        simp only [setup_trace_eq, hb, handle_releases_append, hrels, hl]
        simp [handle_releases]
      refine ⟨fun hm => ?_, ?_, fun v hv => ?_⟩
      · simp only [setup_trace_eq, hb, handle_operations_append, hops hm, ho, ne_eq,
          not_true_eq_false, if_false]
        simp [handle_operations]
      · simp [hnone]
      · simp only [Option.some.injEq] at hv
        subst hv
        exact ⟨rfl, rfl, rfl, hnone⟩

theorem free_trace_eq (defs : Definitions) (env : Collaborators)
    (internal_long_value : libesedb_internal_long_value_t) :
    (libesedb_long_value_free defs env (some (some internal_long_value))).trace
      = (if internal_long_value.flags &&& defs.LIBESEDB_ITEM_FLAG_MANAGED_FILE_IO_HANDLE ≠ 0
            ∧ internal_long_value.file_io_handle ≠ none then
          [Call.libbfio_handle_close internal_long_value.file_io_handle
              (env.libbfio_handle_close internal_long_value.file_io_handle),
            Call.libbfio_handle_free internal_long_value.file_io_handle
              (env.libbfio_handle_free internal_long_value.file_io_handle)]
          else [])
        ++ [Call.libfdata_block_free env.libfdata_block_free,
          Call.libfdata_cache_free env.libfdata_cache_free, Call.memory_free] := by
  simp [libesedb_long_value_free]

/-- C7: the ownership mode decides every handle operation.  In the borrowing mode (flags 0)
no call of `libesedb_long_value_initialize`, returning 1 or -1, clones, closes or releases a
handle, the long value it leaves stores the handle of the caller, and
`libesedb_long_value_free` of that long value closes and releases no handle.  In the managed
mode, when the clone is a handle of its own (not `NULL`, not the handle of the caller), no
call of `libesedb_long_value_initialize` closes or releases the handle of the caller, the
long value it leaves stores the clone, and `libesedb_long_value_free` of that long value
closes the clone, then releases it, once each, before the data block, the data cache and
the long value, and does not close or release the handle of the caller. -/
theorem C7_ownership_mode (defs : Definitions) (env : Collaborators) (fuel : Nat)
    (file_io_handle : Option Nat) (key : List Nat) (flags : Nat) :
    (∀ r, libesedb_long_value_initialize defs env fuel (some none) file_io_handle (some key)
        4 0 = some r →
      handle_operations r.trace = []
      ∧ ∀ v, r.long_value = some v →
        v.file_io_handle = file_io_handle
        ∧ handle_operations (libesedb_long_value_free defs env (some (some v))).trace = [])
    ∧ (flags &&& complement defs.LIBESEDB_ITEM_FLAG_MANAGED_FILE_IO_HANDLE = 0 →
      flags &&& defs.LIBESEDB_ITEM_FLAG_MANAGED_FILE_IO_HANDLE ≠ 0 →
      (env.libbfio_handle_clone file_io_handle).2 ≠ none →
      (env.libbfio_handle_clone file_io_handle).2 ≠ file_io_handle →
      ∀ r, libesedb_long_value_initialize defs env fuel (some none) file_io_handle (some key)
          4 flags = some r →
        file_io_handle ∉ handle_releases r.trace
        ∧ ∀ v, r.long_value = some v →
          v.file_io_handle = (env.libbfio_handle_clone file_io_handle).2
          ∧ handle_releases r.trace = []
          ∧ (libesedb_long_value_free defs env (some (some v))).trace
            = [Call.libbfio_handle_close (env.libbfio_handle_clone file_io_handle).2
                (env.libbfio_handle_close (env.libbfio_handle_clone file_io_handle).2),
              Call.libbfio_handle_free (env.libbfio_handle_clone file_io_handle).2
                (env.libbfio_handle_free (env.libbfio_handle_clone file_io_handle).2),
              Call.libfdata_block_free env.libfdata_block_free,
              Call.libfdata_cache_free env.libfdata_cache_free, Call.memory_free]
          ∧ file_io_handle ∉
            handle_releases (libesedb_long_value_free defs env (some (some v))).trace) := by
  constructor
  · intro r hcall
    have h0 : 0 &&& complement defs.LIBESEDB_ITEM_FLAG_MANAGED_FILE_IO_HANDLE = 0 :=
      Nat.zero_and _
    have hm : 0 &&& defs.LIBESEDB_ITEM_FLAG_MANAGED_FILE_IO_HANDLE = 0 := Nat.zero_and _
    obtain ⟨h1, -, h3⟩ :=
      initialize_handle_trace defs env fuel file_io_handle key 0 h0 r hcall
    refine ⟨h1 hm, fun v hv => ?_⟩
    obtain ⟨-, hh, hf, -⟩ := h3 v hv
    refine ⟨by simpa [stored_handle] using hh, ?_⟩
    rw [free_trace_eq]
    simp [hf, handle_operations]
  · intro hflags hm hnull hfresh r hcall
    obtain ⟨-, h2, h3⟩ :=
      initialize_handle_trace defs env fuel file_io_handle key flags hflags r hcall
    have hs : stored_handle defs env file_io_handle flags
        = (env.libbfio_handle_clone file_io_handle).2 := by
      simp [stored_handle, hm]
    rw [hs] at h2 h3
    refine ⟨fun hin => hfresh (h2 _ hin).symm, fun v hv => ?_⟩
    obtain ⟨-, hh, hf, hrel⟩ := h3 v hv
    have htrace := free_trace_eq defs env v
    rw [hh, hf] at htrace
    simp only [hm, hnull, ne_eq, not_false_eq_true, and_self, if_true] at htrace
    refine ⟨hh, hrel, by simpa using htrace, ?_⟩
    rw [htrace]
    simp only [handle_releases, List.cons_append, List.nil_append, List.filterMap_cons,
      List.filterMap_nil, List.mem_cons, List.not_mem_nil, or_false, or_self]
    exact fun h => hfresh h.symm

/-- Witness of C7: in the scenario, in the managed mode, the clone of handle 7 is handle 107;
the long value stores it, and its release closes handle 107, then releases it, before the
data block, the data cache and the long value. -/
theorem C7_ownership_mode_witness :
    ∃ r v, libesedb_long_value_initialize example_definitions scenario_store 5 (some none)
        (some 7) (some [1, 0, 0, 0]) 4 1 = some r
      ∧ r.long_value = some v ∧ v.file_io_handle = some 107
      ∧ (libesedb_long_value_free example_definitions scenario_store (some (some v))).trace
        = [Call.libbfio_handle_close (some 107) 0, Call.libbfio_handle_free (some 107) 1,
          Call.libfdata_block_free 1, Call.libfdata_cache_free 1, Call.memory_free] := by
  have h := (C7_ownership_mode example_definitions scenario_store 5 (some 7) [1, 0, 0, 0] 1).2
    (by decide) (by decide) (by decide) (by decide)
  exact ⟨_, _, rfl, rfl, ((h _ rfl).2 _ rfl).1, ((h _ rfl).2 _ rfl).2.2.1⟩

/-! ## C9: the order of the release -/

/-- C9 as stated fails: in the scenario, in the managed mode, the construction acquires the
long value, the clone, the data block and the data cache in this order, and
`libesedb_long_value_free` releases the clone, the data block, the data cache and the long
value in this order, which is not the reverse. -/
theorem C9_release_order_counterexample :
    ∃ r v, libesedb_long_value_initialize example_definitions scenario_store 5 (some none)
        (some 7) (some [1, 0, 0, 0]) 4 1 = some r
      ∧ r.result = 1 ∧ r.long_value = some v
      ∧ acquired r.trace = [Resource.long_value, Resource.file_io_handle (some 107),
          Resource.data_block, Resource.data_cache]
      ∧ released (libesedb_long_value_free example_definitions scenario_store
          (some (some v))).trace
        = [Resource.file_io_handle (some 107), Resource.data_block, Resource.data_cache,
          Resource.long_value]
      ∧ released (libesedb_long_value_free example_definitions scenario_store
          (some (some v))).trace ≠ (acquired r.trace).reverse :=
  ⟨_, _, rfl, rfl, rfl, rfl, rfl, by decide⟩

/-- C9, amended: for every long value that a valid call of `libesedb_long_value_initialize`
leaves in the slot, the construction acquired, in this order, the long value, in the
managed mode the file io handle, the data block and the data cache; and
`libesedb_long_value_free` releases, in this order, the file io handle (in the managed mode,
when it is not `NULL`), the data block, the data cache and the long value: the resources
acquired after the long value in the order of their acquisition, the long value last. -/
theorem C9_release_order (defs : Definitions) (env : Collaborators) (fuel : Nat)
    (file_io_handle : Option Nat) (key : List Nat) (flags : Nat)
    (hflags : flags &&& complement defs.LIBESEDB_ITEM_FLAG_MANAGED_FILE_IO_HANDLE = 0)
    (r : Outcome) (v : libesedb_internal_long_value_t)
    (hcall : libesedb_long_value_initialize defs env fuel (some none) file_io_handle (some key)
      4 flags = some r)
    (hvalue : r.long_value = some v) :
    acquired r.trace
      = Resource.long_value ::
        ((if flags &&& defs.LIBESEDB_ITEM_FLAG_MANAGED_FILE_IO_HANDLE ≠ 0 then
            [Resource.file_io_handle v.file_io_handle] else [])
          ++ [Resource.data_block, Resource.data_cache])
    ∧ released (libesedb_long_value_free defs env (some (some v))).trace
      = (if flags &&& defs.LIBESEDB_ITEM_FLAG_MANAGED_FILE_IO_HANDLE ≠ 0
            ∧ v.file_io_handle ≠ none then
          [Resource.file_io_handle v.file_io_handle] else [])
        ++ [Resource.data_block, Resource.data_cache, Resource.long_value] := by
  obtain ⟨-, -, h3⟩ := initialize_handle_trace defs env fuel file_io_handle key flags hflags r hcall
  obtain ⟨hresult, hh, hf, -⟩ := h3 v hvalue
  constructor
  · by_cases hres : ResourcesAcquired defs env file_io_handle flags
    swap
    · obtain ⟨code, trace, h, -⟩ :=
        initialize_resources_failure defs env fuel file_io_handle key flags hflags hres
      rw [h] at hcall
      cases hcall
      simp at hresult
    by_cases hroot : (root_lookup defs env file_io_handle key flags).1 = 1
    swap
    · rw [initialize_root_lookup_failure defs env fuel file_io_handle key flags hflags hres
        hroot] at hcall
      cases hcall
      simp at hresult
    by_cases hread : root_read defs env file_io_handle key flags = 1
    swap
    · rw [initialize_root_read_failure defs env fuel file_io_handle key flags hflags hres
        hroot hread] at hcall
      cases hcall
      simp at hresult
    rw [initialize_of_setup defs env fuel file_io_handle key flags hflags
      ⟨hres, hroot, hread⟩] at hcall
    cases hd : discover_segments defs env flags (stored_handle defs env file_io_handle flags)
        key fuel 0 with
    | none => simp [hd] at hcall
    | some d =>
      obtain ⟨body, hb, ha, -, -, -, -, -⟩ :=
        discover_segments_shape defs env flags _ key fuel 0 d hd
      simp only [hd] at hcall
      cases he : d.error with
      | some code =>
        simp only [he] at hcall
        cases hcall
        simp at hresult
      | none =>
        simp only [he] at hcall
        cases hcall
        simp only [he, if_true, List.append_nil] at hb
        simp only [setup_trace_eq, hb, acquired_append, ha,
          acquired_resources_trace defs env file_io_handle flags (fun hm => (hres.2.2.1 hm).1),
          held_resources, hh]
        simp [acquired, Call.acquires]
  · rw [free_trace_eq, hf]
    split <;> simp [released, Call.releases]

/-- Witness of C9: in the scenario, in the borrowing mode, the construction acquires the long
value, the data block and the data cache, and the release gives back the data block, the
data cache and the long value. -/
theorem C9_release_order_witness :
    ∃ r v, libesedb_long_value_initialize example_definitions scenario_store 5 (some none)
        (some 7) (some [1, 0, 0, 0]) 4 0 = some r
      ∧ r.long_value = some v
      ∧ acquired r.trace = [Resource.long_value, Resource.data_block, Resource.data_cache]
      ∧ released (libesedb_long_value_free example_definitions scenario_store
          (some (some v))).trace
        = [Resource.data_block, Resource.data_cache, Resource.long_value] :=
  ⟨_, _, rfl, rfl,
    (C9_release_order example_definitions scenario_store 5 (some 7) [1, 0, 0, 0] 0 (by decide)
      _ _ rfl rfl).1,
    (C9_release_order example_definitions scenario_store 5 (some 7) [1, 0, 0, 0] 0 (by decide)
      _ _ rfl rfl).2⟩

/-! ## The lookups of the segment loop -/

theorem lookups_append (a b : List Call) : lookups (a ++ b) = lookups a ++ lookups b := by
  simp [lookups, List.filterMap_append]

theorem segment_reads_append (a b : List Call) :
    segment_reads (a ++ b) = segment_reads a ++ segment_reads b := by
  simp [segment_reads, List.filterMap_append]

/-- The j-th lookup of the loop is made with the handle, the key of the offset after j
passes, and the flags 0. -/
theorem discover_segments_lookups (defs : Definitions) (env : Collaborators) (flags : Nat)
    (handle : Option Nat) (key : List Nat) (fuel : Nat) :
    ∀ (offset : Nat) (d : Discovery),
      discover_segments defs env flags handle key fuel offset = some d →
      ∀ (j : Nat) (l : Option Nat × List Nat × Nat × Int), (lookups d.trace)[j]? = some l →
        l = (handle, long_value_segment_key key ((next_segment_offset env handle key)^[j] offset),
          0, (env.libesedb_values_tree_get_value_by_key handle
            (long_value_segment_key key ((next_segment_offset env handle key)^[j] offset))
            0).1) := by
  induction fuel with
  | zero => intro offset d h; simp [discover_segments] at h
  | succ n ih =>
    intro offset d h j l hl
    simp only [discover_segments] at h
    split_ifs at h with h1 h2 h3 h4
    · cases h
      rw [show ∀ (a : Call) (t : List Call), a :: t = [a] ++ t from fun _ _ => rfl,
        lookups_append, free_all_lookups] at hl
      cases j with
      | zero => simp [lookups] at hl; exact hl.symm
      | succ j => simp [lookups] at hl
    · cases h
      rw [show ∀ (a b : Call) (t : List Call), a :: b :: t = [a, b] ++ t from fun _ _ _ => rfl,
        lookups_append, free_all_lookups] at hl
      cases j with
      | zero => simp [lookups] at hl; exact hl.symm
      | succ j => simp [lookups] at hl
    · split at h
      · cases h
      · rename_i d2 hd2
        cases h
        cases j with
        | zero => simp [lookups] at hl; exact hl.symm
        | succ j =>
          have hl2 : (lookups d2.trace)[j]? = some l := by
            simpa [lookups] using hl
          have := ih _ d2 hd2 j l hl2
          rw [Function.iterate_succ_apply]
          exact this
    · cases h
      cases j with
      | zero => simp [lookups] at hl; exact hl.symm
      | succ j => simp [lookups] at hl
    · cases h
      cases j with
      | zero => simp [lookups] at hl; exact hl.symm
      | succ j => simp [lookups] at hl

/-- A lookup of the loop that returns 0 ends the loop without an error. -/
theorem discover_segments_not_found (defs : Definitions) (env : Collaborators) (flags : Nat)
    (handle : Option Nat) (key : List Nat) (fuel : Nat) :
    ∀ (offset : Nat) (d : Discovery),
      discover_segments defs env flags handle key fuel offset = some d →
      (∃ l ∈ lookups d.trace, l.2.2.2 = 0) → d.error = none := by
  induction fuel with
  | zero => intro offset d h; simp [discover_segments] at h
  | succ n ih =>
    intro offset d h hl
    simp only [discover_segments] at h
    split_ifs at h with h1 h2 h3 h4
    · cases h
      rw [show ∀ (a : Call) (t : List Call), a :: t = [a] ++ t from fun _ _ => rfl,
        lookups_append, free_all_lookups] at hl
      simp [lookups, h1] at hl
    · cases h
      rw [show ∀ (a b : Call) (t : List Call), a :: b :: t = [a, b] ++ t from fun _ _ _ => rfl,
        lookups_append, free_all_lookups] at hl
      simp [lookups] at hl
      exact absurd hl h2
    · split at h
      · cases h
      · rename_i d2 hd2
        cases h
        simp only [lookups, List.filterMap_cons, List.mem_cons] at hl
        obtain ⟨l, hl | hl, h0⟩ := hl
        · subst hl
          exact absurd h0 h2
        · exact ih _ d2 hd2 ⟨l, hl, h0⟩
    · cases h
      rfl
    · cases h
      rfl

theorem segment_reads_allocation_trace (defs : Definitions) (env : Collaborators)
    (file_io_handle : Option Nat) (flags : Nat) :
    segment_reads (allocation_trace defs env file_io_handle flags) = [] := by
  unfold allocation_trace handle_calls segment_reads
  split <;> simp

theorem lookups_allocation_trace (defs : Definitions) (env : Collaborators)
    (file_io_handle : Option Nat) (flags : Nat) :
    lookups (allocation_trace defs env file_io_handle flags) = [] := by
  unfold allocation_trace handle_calls lookups
  split <;> simp

theorem lookups_free_managed_handle (defs : Definitions) (env : Collaborators) (flags : Nat)
    (handle : Option Nat) : lookups (free_managed_handle defs env flags handle) = [] := by
  unfold free_managed_handle lookups
  split <;> simp

theorem lookups_resources_trace (defs : Definitions) (env : Collaborators)
    (file_io_handle : Option Nat) (flags : Nat) :
    lookups (resources_trace defs env file_io_handle flags) = [] := by
  rw [resources_trace_eq, lookups_append, lookups_allocation_trace]
  simp [lookups]

theorem lookups_setup_trace (defs : Definitions) (env : Collaborators)
    (file_io_handle : Option Nat) (key : List Nat) (flags : Nat) :
    lookups (setup_trace defs env file_io_handle key flags)
      = [(stored_handle defs env file_io_handle flags, key.take 4,
          defs.LIBESEDB_PAGE_KEY_FLAG_REVERSED_KEY, 1)] := by
  rw [setup_trace_eq, lookups_append, lookups_resources_trace]
  simp [lookups]

/-- The store lookups of a valid call that returns: none, or the root lookup alone, or the
root lookup and then the lookups of the segment loop. -/
theorem initialize_lookups (defs : Definitions) (env : Collaborators) (fuel : Nat)
    (file_io_handle : Option Nat) (key : List Nat) (flags : Nat)
    (hflags : flags &&& complement defs.LIBESEDB_ITEM_FLAG_MANAGED_FILE_IO_HANDLE = 0)
    (r : Outcome)
    (hcall : libesedb_long_value_initialize defs env fuel (some none) file_io_handle (some key)
      4 flags = some r) :
    (lookups r.trace = [] ∧ r.result = -1)
    ∨ (lookups r.trace = [(stored_handle defs env file_io_handle flags, key.take 4,
          defs.LIBESEDB_PAGE_KEY_FLAG_REVERSED_KEY,
          (root_lookup defs env file_io_handle key flags).1)] ∧ r.result = -1)
    ∨ ∃ d, discover_segments defs env flags (stored_handle defs env file_io_handle flags)
          key fuel 0 = some d
        ∧ lookups r.trace = (stored_handle defs env file_io_handle flags, key.take 4,
          defs.LIBESEDB_PAGE_KEY_FLAG_REVERSED_KEY, 1) :: lookups d.trace
        ∧ (d.error = none → r.result = 1 ∧ r.long_value ≠ none) := by
  by_cases hres : ResourcesAcquired defs env file_io_handle flags
  swap
  · obtain ⟨code, trace, h, hcases⟩ :=
      initialize_resources_failure defs env fuel file_io_handle key flags hflags hres
    rw [h] at hcall
    cases hcall
    refine Or.inl ⟨?_, rfl⟩
    rcases hcases with ⟨-, rfl⟩ | ⟨-, rfl⟩ | ⟨-, -, -, rfl⟩ | ⟨-, -, -, rfl⟩
      | ⟨-, -, -, rfl⟩ | ⟨-, -, -, rfl⟩
    · simp [lookups]
    · simp [lookups]
    · simp [lookups]
    · simp [lookups]
    · simp only [lookups_append, lookups_allocation_trace, lookups_free_managed_handle]
      simp [lookups]
    · simp only [lookups_append, lookups_allocation_trace, lookups_free_managed_handle]
      simp [lookups]
  by_cases hroot : (root_lookup defs env file_io_handle key flags).1 = 1
  swap
  · rw [initialize_root_lookup_failure defs env fuel file_io_handle key flags hflags hres
      hroot] at hcall
    cases hcall
    refine Or.inr (Or.inl ⟨?_, rfl⟩)
    simp only [lookups_append, lookups_resources_trace, free_all_lookups]
    simp [lookups]
  by_cases hread : root_read defs env file_io_handle key flags = 1
  swap
  · rw [initialize_root_read_failure defs env fuel file_io_handle key flags hflags hres
      hroot hread] at hcall
    cases hcall
    refine Or.inr (Or.inl ⟨?_, rfl⟩)
    simp only [lookups_append, lookups_resources_trace, free_all_lookups]
    simp [lookups, hroot]
  rw [initialize_of_setup defs env fuel file_io_handle key flags hflags
    ⟨hres, hroot, hread⟩] at hcall
  cases hd : discover_segments defs env flags (stored_handle defs env file_io_handle flags)
      key fuel 0 with
  | none => simp [hd] at hcall
  | some d =>
    simp only [hd] at hcall
    refine Or.inr (Or.inr ⟨d, rfl, ?_⟩)
    cases he : d.error with
    | some code =>
      simp only [he] at hcall
      cases hcall
      simp [lookups_append, lookups_setup_trace]
    | none =>
      simp only [he] at hcall
      cases hcall
      simp [lookups_append, lookups_setup_trace]

/-! ## C2: the keys of the lookups -/

/-- C2 as stated fails: for the key bytes `[1, 2, 3, 4]` the first segment lookup is made with
the key `[4, 3, 2, 1, 0, 0, 0, 0]`, which is not the key bytes in the order of the caller
followed by the offset 0 in little-endian order. -/
theorem C2_segment_key_counterexample :
    ∃ r, libesedb_long_value_initialize example_definitions reversed_key_store 5 (some none)
        (some 7) (some [1, 2, 3, 4]) 4 0 = some r
      ∧ lookups r.trace = [(some 7, [1, 2, 3, 4], 1, 1), (some 7, [4, 3, 2, 1, 0, 0, 0, 0], 0, 0)]
      ∧ [4, 3, 2, 1, 0, 0, 0, 0]
        ≠ [1, 2, 3, 4] ++ byte_stream_copy_from_uint32_little_endian 0 :=
  ⟨_, rfl, rfl, by decide⟩

/-- C2, amended: in every valid call that returns, with the key bytes `[k0, k1, k2, k3]`, the
first store lookup is the root lookup, made with the four key bytes in the order of the
caller and the reversed-key flag; every later lookup, the j-th of the segment loop, is made
with the stored handle, with the flags 0, and with the 8-byte key that holds the four key
bytes in the reverse order, `[k3, k2, k1, k0]`, and then the four little-endian bytes of the
current offset, a value below `2 ^ 32` which is 0 at first and after each pass the offset of
that pass plus the data size of its segment, modulo `2 ^ 32`. -/
theorem C2_segment_key (defs : Definitions) (env : Collaborators) (fuel : Nat)
    (file_io_handle : Option Nat) (k0 k1 k2 k3 : Nat) (flags : Nat)
    (hflags : flags &&& complement defs.LIBESEDB_ITEM_FLAG_MANAGED_FILE_IO_HANDLE = 0)
    (r : Outcome)
    (hcall : libesedb_long_value_initialize defs env fuel (some none) file_io_handle
      (some [k0, k1, k2, k3]) 4 flags = some r) :
    (∀ l, (lookups r.trace)[0]? = some l →
      l.1 = stored_handle defs env file_io_handle flags ∧ l.2.1 = [k0, k1, k2, k3]
        ∧ l.2.2.1 = defs.LIBESEDB_PAGE_KEY_FLAG_REVERSED_KEY)
    ∧ ∀ j l, (lookups r.trace)[j + 1]? = some l →
      l.1 = stored_handle defs env file_io_handle flags
      ∧ l.2.1 = [k3, k2, k1, k0] ++ byte_stream_copy_from_uint32_little_endian
          ((next_segment_offset env (stored_handle defs env file_io_handle flags)
            [k0, k1, k2, k3])^[j] 0)
      ∧ l.2.2.1 = 0
      ∧ (next_segment_offset env (stored_handle defs env file_io_handle flags)
            [k0, k1, k2, k3])^[j] 0 < 2 ^ 32 := by
  have hlt : ∀ j, (next_segment_offset env (stored_handle defs env file_io_handle flags)
      [k0, k1, k2, k3])^[j] 0 < 2 ^ 32 := by
    intro j
    cases j with
    | zero => simp
    | succ j =>
      rw [Function.iterate_succ_apply']
      exact Nat.mod_lt _ (by norm_num)
  rcases initialize_lookups defs env fuel file_io_handle [k0, k1, k2, k3] flags hflags r hcall
    with ⟨h, -⟩ | ⟨h, -⟩ | ⟨d, hd, h, -⟩
  · simp [h]
  · simp only [h]
    refine ⟨fun l hl => ?_, fun j l hl => by simp at hl⟩
    simp at hl
    subst hl
    simp
  · simp only [h]
    refine ⟨fun l hl => ?_, fun j l hl => ?_⟩
    · simp at hl
      subst hl
      simp
    · simp only [List.getElem?_cons_succ] at hl
      have := discover_segments_lookups defs env flags _ [k0, k1, k2, k3] fuel 0 d hd j l hl
      subst this
      exact ⟨rfl, by simp [long_value_segment_key], rfl, hlt j⟩

/-- Witness of C2: in the scenario, with the key bytes `[1, 0, 0, 0]`, the third segment
lookup is made with the key `[0, 0, 0, 1]` followed by the bytes of 4608, `[0, 18, 0, 0]`. -/
theorem C2_segment_key_witness :
    ∃ r l, libesedb_long_value_initialize example_definitions scenario_store 5 (some none)
        (some 7) (some [1, 0, 0, 0]) 4 0 = some r
      ∧ (lookups r.trace)[3]? = some l
      ∧ l.2.1 = [0, 0, 0, 1] ++ byte_stream_copy_from_uint32_little_endian 4608
      ∧ l.2.2.1 = 0 :=
  ⟨_, _, rfl, rfl,
    ((C2_segment_key example_definitions scenario_store 5 (some 7) 1 0 0 0 0 (by decide) _
      rfl).2 2 _ rfl).2.1,
    ((C2_segment_key example_definitions scenario_store 5 (some 7) 1 0 0 0 0 (by decide) _
      rfl).2 2 _ rfl).2.2.1⟩

/-! ## C4: a root lookup that finds nothing -/

/-- C4: when the resources are acquired and the root lookup, the lookup with the
reversed-key flag, returns 0 (not found), a valid call returns -1 whatever the fuel, with
the get-failed error, the slot left `NULL`, the root lookup as its only store lookup and no
segment read.  In contrast, in every valid call that returns, a lookup with an 8-byte key (a
lookup of the segment loop) that returns 0 ends the construction with success: the call
returns 1 and leaves a long value in the slot; so when the setup succeeds and the first
segment lookup returns 0, the call returns 1 with a long value of no segment. -/
theorem C4_root_not_found (defs : Definitions) (env : Collaborators) (fuel : Nat)
    (file_io_handle : Option Nat) (key : List Nat) (flags : Nat)
    (hflags : flags &&& complement defs.LIBESEDB_ITEM_FLAG_MANAGED_FILE_IO_HANDLE = 0) :
    (ResourcesAcquired defs env file_io_handle flags →
      (root_lookup defs env file_io_handle key flags).1 = 0 →
      ∃ r, libesedb_long_value_initialize defs env fuel (some none) file_io_handle (some key)
          4 flags = some r
        ∧ r.result = -1 ∧ r.long_value = none
        ∧ r.error = [liberror_code.LIBERROR_RUNTIME_ERROR_GET_FAILED]
        ∧ lookups r.trace = [(stored_handle defs env file_io_handle flags, key.take 4,
            defs.LIBESEDB_PAGE_KEY_FLAG_REVERSED_KEY, 0)]
        ∧ segment_reads r.trace = [])
    ∧ (∀ r, libesedb_long_value_initialize defs env fuel (some none) file_io_handle (some key)
          4 flags = some r →
        (∃ l ∈ lookups r.trace, l.2.1.length = 8 ∧ l.2.2.2 = 0) →
        r.result = 1 ∧ r.long_value ≠ none)
    ∧ (SetupSucceeds defs env file_io_handle key flags →
      (env.libesedb_values_tree_get_value_by_key (stored_handle defs env file_io_handle flags)
        (long_value_segment_key key 0) 0).1 = 0 →
      ∃ r v, libesedb_long_value_initialize defs env (fuel + 1) (some none) file_io_handle
          (some key) 4 flags = some r
        ∧ r.result = 1 ∧ r.long_value = some v ∧ v.data_block = []
        ∧ libesedb_long_value_get_number_of_segments r.long_value = (1, some 0)) := by
  refine ⟨fun hres hroot => ?_, fun r hcall hl => ?_, fun hsetup hfirst => ?_⟩
  · have hne : (root_lookup defs env file_io_handle key flags).1 ≠ 1 := by
      rw [hroot]; decide
    refine ⟨_, initialize_root_lookup_failure defs env fuel file_io_handle key flags hflags
      hres hne, rfl, rfl, rfl, ?_, ?_⟩
    · simp only [lookups_append, lookups_resources_trace, free_all_lookups, hroot]
      simp [lookups]
    · simp only [segment_reads_append, free_all_segment_reads, resources_trace_eq,
        segment_reads_allocation_trace]
      simp [segment_reads]
  · obtain ⟨l, hl, hlen, h0⟩ := hl
    rcases initialize_lookups defs env fuel file_io_handle key flags hflags r hcall
      with ⟨h, -⟩ | ⟨h, -⟩ | ⟨d, hd, h, hgood⟩
    · simp [h] at hl
    · simp only [h, List.mem_singleton] at hl
      subst hl
      exact absurd hlen (by simpa using min_four_ne_eight key.length)
    · simp only [h, List.mem_cons] at hl
      rcases hl with hl | hl
      · subst hl
        exact absurd hlen (by simpa using min_four_ne_eight key.length)
      · exact hgood (discover_segments_not_found defs env flags _ key fuel 0 d hd ⟨l, hl, h0⟩)
  · rw [initialize_of_setup defs env (fuel + 1) file_io_handle key flags hflags hsetup]
    have hd : discover_segments defs env flags (stored_handle defs env file_io_handle flags)
        key (fuel + 1) 0
        = some ⟨none, [], [Call.libesedb_values_tree_get_value_by_key
            (stored_handle defs env file_io_handle flags) (long_value_segment_key key 0) 0
            0]⟩ := by
      simp [discover_segments, hfirst]
    rw [hd]
    exact ⟨_, _, rfl, rfl, rfl, rfl, rfl⟩

/-- Witness of C4: against the store of the scenario, the key bytes `[2, 0, 0, 0]` have no
root record: the call returns -1 and makes the root lookup only; the key bytes `[1, 2, 3, 4]`
against their store have a root record and no segment: the call returns 1 and the long
value has no segment. -/
theorem C4_root_not_found_witness :
    (∃ r, libesedb_long_value_initialize example_definitions scenario_store 5 (some none)
        (some 7) (some [2, 0, 0, 0]) 4 0 = some r
      ∧ r.result = -1 ∧ r.long_value = none
      ∧ lookups r.trace = [(some 7, [2, 0, 0, 0], 1, 0)])
    ∧ ∃ r v, libesedb_long_value_initialize example_definitions reversed_key_store 5 (some none)
        (some 7) (some [1, 2, 3, 4]) 4 0 = some r
      ∧ r.result = 1 ∧ r.long_value = some v ∧ v.data_block = [] := by
  obtain ⟨r, h1, h2, h3, -, h5, -⟩ :=
    (C4_root_not_found example_definitions scenario_store 5 (some 7) [2, 0, 0, 0] 0
      (by decide)).1 (by decide) (by decide)
  obtain ⟨r2, v, g1, g2, g3, g4, -⟩ :=
    (C4_root_not_found example_definitions reversed_key_store 4 (some 7) [1, 2, 3, 4] 0
      (by decide)).2.2 (by decide) (by decide)
  exact ⟨⟨r, h1, h2, h3, h5⟩, r2, v, g1, g2, g3, g4⟩

/-! ## C1: the chain of segments -/

theorem segment_reads_setup_trace (defs : Definitions) (env : Collaborators)
    (file_io_handle : Option Nat) (key : List Nat) (flags : Nat) :
    segment_reads (setup_trace defs env file_io_handle key flags) = [] := by
  rw [setup_trace_eq, resources_trace_eq]
  simp only [segment_reads_append, segment_reads_allocation_trace]
  simp [segment_reads]

/-- The loop along a chain of segments of the given sizes that ends with a lookup that finds
nothing. -/
theorem discover_segments_chain (defs : Definitions) (env : Collaborators) (flags : Nat)
    (handle : Option Nat) (key : List Nat) :
    ∀ (sizes : List Nat) (start fuel : Nat),
      start + sizes.sum < 2 ^ 32 →
      (∀ i, i < sizes.length →
        (env.libesedb_values_tree_get_value_by_key handle
            (long_value_segment_key key (start + (sizes.take i).sum)) 0).1 = 1
        ∧ (env.libesedb_values_tree_value_read_long_value_segment
            (env.libesedb_values_tree_get_value_by_key handle
              (long_value_segment_key key (start + (sizes.take i).sum)) 0).2 handle
            (start + (sizes.take i).sum)).1 = 1
        ∧ segment_data_size env handle key (start + (sizes.take i).sum) = sizes.getD i 0) →
      (env.libesedb_values_tree_get_value_by_key handle
          (long_value_segment_key key (start + sizes.sum)) 0).1 = 0 →
      sizes.length < fuel →
      ∃ d, discover_segments defs env flags handle key fuel start = some d
        ∧ d.error = none
        ∧ d.segments = (List.range sizes.length).map
            (fun i => ⟨start + (sizes.take i).sum, sizes.getD i 0⟩)
        ∧ lookups d.trace = (List.range (sizes.length + 1)).map
            (fun i => (handle, long_value_segment_key key (start + (sizes.take i).sum), 0,
              if i < sizes.length then 1 else 0))
        ∧ segment_reads d.trace = (List.range sizes.length).map
            (fun i => (handle, start + (sizes.take i).sum)) := by
  intro sizes
  induction sizes with
  | nil =>
    intro start fuel _ _ hend hfuel
    obtain ⟨n, rfl⟩ : ∃ n, fuel = n + 1 := ⟨fuel - 1, by simp at hfuel; omega⟩
    simp only [List.sum_nil, Nat.add_zero] at hend
    refine ⟨_, by simp [discover_segments, hend]; rfl, ?_⟩
    simp [lookups, segment_reads, hend]
  | cons s ss ih =>
    intro start fuel hsum hfound hend hfuel
    obtain ⟨n, rfl⟩ : ∃ n, fuel = n + 1 := ⟨fuel - 1, by simp at hfuel; omega⟩
    simp only [List.sum_cons] at hsum hend
    have h0 := hfound 0 (by simp)
    simp only [List.take_zero, List.sum_nil, Nat.add_zero, List.getD_cons_zero] at h0
    have hstep : SegmentStep env handle key start (start + s) := by
      refine ⟨h0.1, h0.2.1, ?_⟩
      rw [next_segment_offset, h0.2.2, Nat.mod_eq_of_lt (by omega)]
    obtain ⟨d, hd, he, hsegs, hlook, hreads⟩ := ih (start + s) n (by omega)
      (fun i hi => by
        have := hfound (i + 1) (by simpa using hi)
        simpa [List.take_succ_cons, Nat.add_assoc] using this)
      (by simpa [Nat.add_assoc] using hend) (by simpa using hfuel)
    rw [discover_segments_step defs env flags handle key n start (start + s) hstep, hd]
    refine ⟨_, rfl, he, ?_, ?_, ?_⟩
    · simp only [hsegs, h0.2.2, List.length_cons]
      rw [List.range_succ_eq_map]
      simp [List.take_succ_cons, Nat.add_assoc, Function.comp_def]
    · simp only [lookups, List.filterMap_cons, List.length_cons] at hlook ⊢
      rw [hlook, List.range_succ_eq_map (ss.length + 1)]
      simp [List.take_succ_cons, Nat.add_assoc, Function.comp_def]
    · simp only [segment_reads, List.filterMap_cons, List.length_cons] at hreads ⊢
      rw [hreads, List.range_succ_eq_map]
      simp [List.take_succ_cons, Nat.add_assoc, Function.comp_def]

/-- C1: the chain of segments.  In a valid call in which every step before the segment loop
succeeds, for sizes `s_0 .. s_{N-1}` whose sum is below `2 ^ 32` and their cumulative offsets
`o_i = s_0 + .. + s_{i-1}`: when, for every `i < N`, the lookup at `o_i` returns 1, the read of
its segment returns 1 and its data size is `s_i`, and the lookup at `o_N` returns 0, then
with any fuel above `N` the call returns 1, sets no error and leaves a long value whose data
block holds exactly the `N` segments, the i-th at offset `o_i` with size `s_i`; the segment
reads of the call are the `N` reads at the offsets `o_0 .. o_{N-1}` in order, its store
lookups are the root lookup and the lookups at `o_0 .. o_N` in order, and
`libesedb_long_value_get_number_of_segments` returns 1 with the count `N`. -/
theorem C1_segment_chain (defs : Definitions) (env : Collaborators) (fuel : Nat)
    (file_io_handle : Option Nat) (key : List Nat) (flags : Nat) (sizes : List Nat)
    (hflags : flags &&& complement defs.LIBESEDB_ITEM_FLAG_MANAGED_FILE_IO_HANDLE = 0)
    (hsetup : SetupSucceeds defs env file_io_handle key flags)
    (hsum : sizes.sum < 2 ^ 32)
    (hfound : ∀ i, i < sizes.length →
      (env.libesedb_values_tree_get_value_by_key (stored_handle defs env file_io_handle flags)
          (long_value_segment_key key (sizes.take i).sum) 0).1 = 1
      ∧ (env.libesedb_values_tree_value_read_long_value_segment
          (env.libesedb_values_tree_get_value_by_key
            (stored_handle defs env file_io_handle flags)
            (long_value_segment_key key (sizes.take i).sum) 0).2
          (stored_handle defs env file_io_handle flags) (sizes.take i).sum).1 = 1
      ∧ segment_data_size env (stored_handle defs env file_io_handle flags) key
          (sizes.take i).sum = sizes.getD i 0)
    (hend : (env.libesedb_values_tree_get_value_by_key
      (stored_handle defs env file_io_handle flags)
      (long_value_segment_key key sizes.sum) 0).1 = 0)
    (hfuel : sizes.length < fuel) :
    ∃ r v, libesedb_long_value_initialize defs env fuel (some none) file_io_handle (some key)
        4 flags = some r
      ∧ r.result = 1 ∧ r.error = [] ∧ r.long_value = some v
      ∧ v.data_block = (List.range sizes.length).map
          (fun i => ⟨(sizes.take i).sum, sizes.getD i 0⟩)
      ∧ segment_reads r.trace = (List.range sizes.length).map
          (fun i => (stored_handle defs env file_io_handle flags, (sizes.take i).sum))
      ∧ lookups r.trace
        = (stored_handle defs env file_io_handle flags, key.take 4,
            defs.LIBESEDB_PAGE_KEY_FLAG_REVERSED_KEY, 1)
          :: (List.range (sizes.length + 1)).map
            (fun i => (stored_handle defs env file_io_handle flags,
              long_value_segment_key key (sizes.take i).sum, 0,
              if i < sizes.length then 1 else 0))
      ∧ libesedb_long_value_get_number_of_segments r.long_value
        = (1, some sizes.length) := by
  obtain ⟨d, hd, he, hsegs, hlook, hreads⟩ := discover_segments_chain defs env flags
    (stored_handle defs env file_io_handle flags) key sizes 0 fuel (by simpa using hsum)
    (by simpa using hfound) (by simpa using hend) hfuel
  rw [initialize_of_setup defs env fuel file_io_handle key flags hflags hsetup, hd]
  simp only [he]
  refine ⟨_, _, rfl, rfl, rfl, rfl, ?_, ?_, ?_, ?_⟩
  · simpa using hsegs
  · simp only [segment_reads_append, segment_reads_setup_trace, hreads]
    simp
  · simp only [lookups_append, lookups_setup_trace, hlook]
    simp
  · simp [libesedb_long_value_get_number_of_segments, libfdata_block_get_number_of_segments,
      hsegs]

/-- Witness of C1: the scenario.  The sizes 4096 and 512 give the root lookup and the
lookups at the offsets 0, 4096 and 4608, the segments at the offsets 0 and 4096, and the
count 2. -/
theorem C1_segment_chain_witness :
    ∃ r v, libesedb_long_value_initialize example_definitions scenario_store 5 (some none)
        (some 7) (some [1, 0, 0, 0]) 4 0 = some r
      ∧ r.result = 1 ∧ r.long_value = some v
      ∧ v.data_block = [⟨0, 4096⟩, ⟨4096, 512⟩]
      ∧ segment_reads r.trace = [(some 7, 0), (some 7, 4096)]
      ∧ lookups r.trace = [(some 7, [1, 0, 0, 0], 1, 1),
          (some 7, [0, 0, 0, 1] ++ byte_stream_copy_from_uint32_little_endian 0, 0, 1),
          (some 7, [0, 0, 0, 1] ++ byte_stream_copy_from_uint32_little_endian 4096, 0, 1),
          (some 7, [0, 0, 0, 1] ++ byte_stream_copy_from_uint32_little_endian 4608, 0, 0)]
      ∧ libesedb_long_value_get_number_of_segments r.long_value = (1, some 2) := by
  obtain ⟨r, v, h1, h2, -, h4, h5, h6, h7, h8⟩ :=
    C1_segment_chain example_definitions scenario_store 5 (some 7) [1, 0, 0, 0] 0 [4096, 512]
      (by decide) (by decide) (by decide) (by decide) (by decide) (by decide)
  exact ⟨r, v, h1, h2, h4, h5, h6, h7, h8⟩

/-! ## C10: termination of the segment loop -/

theorem long_value_segment_key_injective (key : List Nat) (a b : Nat) (ha : a < 2 ^ 32)
    (hb : b < 2 ^ 32) (h : long_value_segment_key key a = long_value_segment_key key b) :
    a = b := by
  simp only [long_value_segment_key, byte_stream_copy_from_uint32_little_endian,
    List.cons_append, List.nil_append, List.cons.injEq, true_and, and_true] at h
  omega

theorem reached_lt (env : Collaborators) (handle : Option Nat) (key : List Nat) (offset : Nat)
    (h : Reached env handle key offset) : offset < 2 ^ 32 := by
  induction h with
  | refl => norm_num
  | tail _ hstep _ =>
    rw [hstep.2.2]
    exact Nat.mod_lt _ (by norm_num)

/-- A pass that does not go on ends the loop with its lookup as the only one. -/
theorem discover_segments_stop (defs : Definitions) (env : Collaborators) (flags : Nat)
    (handle : Option Nat) (key : List Nat) (fuel offset : Nat)
    (hstop : ¬ SegmentStep env handle key offset (next_segment_offset env handle key offset)) :
    ∃ d, discover_segments defs env flags handle key (fuel + 1) offset = some d
      ∧ lookups d.trace = [(handle, long_value_segment_key key offset, 0,
          (env.libesedb_values_tree_get_value_by_key handle
            (long_value_segment_key key offset) 0).1)] := by
  simp only [discover_segments]
  split_ifs with h1 h2 h3 h4
  · refine ⟨_, rfl, ?_⟩
    rw [show ∀ (a : Call) (t : List Call), a :: t = [a] ++ t from fun _ _ => rfl,
      lookups_append, free_all_lookups]
    simp [lookups]
  · refine ⟨_, rfl, ?_⟩
    rw [show ∀ (a b : Call) (t : List Call), a :: b :: t = [a, b] ++ t from fun _ _ _ => rfl,
      lookups_append, free_all_lookups]
    simp [lookups]
  · exact absurd ⟨h4, not_not.mp h3, rfl⟩ hstop
  · exact ⟨_, rfl, by simp [lookups]⟩
  · exact ⟨_, rfl, by simp [lookups]⟩

/-- The loop ends when every segment it finds and reads has a size of at least 1 and ends
below `2 ^ 32`: the offsets of its lookups increase strictly. -/
theorem discover_segments_terminates (defs : Definitions) (env : Collaborators) (flags : Nat)
    (handle : Option Nat) (key : List Nat)
    (hsizes : ∀ offset next, Reached env handle key offset →
      SegmentStep env handle key offset next →
      1 ≤ segment_data_size env handle key offset
        ∧ offset + segment_data_size env handle key offset < 2 ^ 32) (fuel : Nat) :
    ∀ offset, Reached env handle key offset → 2 ^ 32 - offset < fuel →
      ∃ (d : Discovery) (offsets : List Nat),
        discover_segments defs env flags handle key fuel offset = some d
        ∧ offsets.Pairwise (· < ·) ∧ (∀ o ∈ offsets, offset ≤ o ∧ o < 2 ^ 32)
        ∧ (lookups d.trace).map (fun l => l.2.1) = offsets.map (long_value_segment_key key)
        ∧ lookups d.trace ≠ []
        ∧ (∀ l ∈ (lookups d.trace).dropLast, l.2.2.2 = 1)
        ∧ (lookups d.trace).length ≤ fuel := by
  induction fuel with
  | zero => intro offset _ h; omega
  | succ n ih =>
    intro offset hreach hfuel
    have hlt := reached_lt env handle key offset hreach
    by_cases hstep : SegmentStep env handle key offset
        (next_segment_offset env handle key offset)
    · obtain ⟨hpos, hend⟩ := hsizes offset _ hreach hstep
      have hnext : next_segment_offset env handle key offset
          = offset + segment_data_size env handle key offset := by
        rw [next_segment_offset, Nat.mod_eq_of_lt hend]
      obtain ⟨d, offsets, hd, hpair, hge, hkeys, hne, hones, hlen⟩ :=
        ih (next_segment_offset env handle key offset)
          (Relation.ReflTransGen.tail hreach hstep) (by omega)
      rw [discover_segments_step defs env flags handle key n offset _ hstep, hd]
      refine ⟨_, offset :: offsets, rfl, ?_, ?_, ?_, ?_, ?_, ?_⟩
      · refine List.pairwise_cons.mpr ⟨fun o ho => ?_, hpair⟩
        have := (hge o ho).1
        omega
      · intro o ho
        rcases List.mem_cons.mp ho with rfl | ho
        · exact ⟨le_rfl, hlt⟩
        · have := hge o ho
          omega
      · simp only [lookups, List.filterMap_cons, List.map_cons] at hkeys ⊢
        rw [hkeys]
      · simp [lookups]
      · intro l hl
        have hcons : lookups (Call.libesedb_values_tree_get_value_by_key handle
              (long_value_segment_key key offset) 0 1
            :: Call.libesedb_values_tree_value_read_long_value_segment handle offset 1
            :: d.trace)
            = (handle, long_value_segment_key key offset, 0, 1) :: lookups d.trace := by
          simp [lookups]
        rw [hcons, List.dropLast_cons_of_ne_nil hne] at hl
        rcases List.mem_cons.mp hl with rfl | hl
        · rfl
        · exact hones l hl
      · simp only [lookups, List.filterMap_cons, List.length_cons] at hlen ⊢
        omega
    · obtain ⟨d, hd, hl⟩ := discover_segments_stop defs env flags handle key n offset hstep
      refine ⟨d, [offset], hd, by simp, ?_, by simp [hl], by simp [hl], by simp [hl],
        by simp [hl]⟩
      intro o ho
      rw [List.mem_singleton.mp ho]
      exact ⟨le_rfl, hlt⟩

/-- A pass that finds and reads a segment of size 0 repeats itself: the loop never ends. -/
theorem discover_segments_stuck (defs : Definitions) (env : Collaborators) (flags : Nat)
    (handle : Option Nat) (key : List Nat) (offset : Nat) (hlt : offset < 2 ^ 32)
    (hstep : SegmentStep env handle key offset (next_segment_offset env handle key offset))
    (hzero : segment_data_size env handle key offset = 0) (fuel : Nat) :
    discover_segments defs env flags handle key fuel offset = none := by
  have hnext : next_segment_offset env handle key offset = offset := by
    rw [next_segment_offset, hzero, Nat.add_zero, Nat.mod_eq_of_lt hlt]
  induction fuel with
  | zero => rfl
  | succ n ih =>
    rw [discover_segments_step defs env flags handle key n offset _ hstep, hnext, ih]

/-- A loop that never ends from a reached offset never ends from offset 0. -/
theorem discover_segments_never (defs : Definitions) (env : Collaborators) (flags : Nat)
    (handle : Option Nat) (key : List Nat) (offset : Nat)
    (hreach : Reached env handle key offset)
    (hnever : ∀ fuel, discover_segments defs env flags handle key fuel offset = none) :
    ∀ fuel, discover_segments defs env flags handle key fuel 0 = none := by
  have hall : ∀ a, Relation.ReflTransGen (SegmentStep env handle key) a offset →
      ∀ fuel, discover_segments defs env flags handle key fuel a = none := by
    intro a h
    induction h using Relation.ReflTransGen.head_induction_on with
    | refl => exact hnever
    | head hstep _ ih =>
      intro fuel
      cases fuel with
      | zero => rfl
      | succ n => rw [discover_segments_step defs env flags handle key n _ _ hstep, ih n]
  exact hall 0 hreach

/-- C10: termination of the segment discovery, for a valid call in which every step before
the segment loop succeeds and a deterministic store.  When every pass that the loop makes
and that finds and reads a segment has a data size of at least 1 and an offset plus data
size below `2 ^ 32`, the call returns with some fuel of at most `2 ^ 32 + 1`: the lookups
after the root lookup are made with the keys of strictly increasing offsets below `2 ^ 32`,
no key twice, all of them but the last return 1, and there are at most as many as the fuel.
When a pass that the loop makes finds and reads a segment of data size 0, the offset after
the pass is the offset of the pass, so the next lookup has the same key, and the call does
not return, whatever the fuel. -/
theorem C10_segment_discovery_terminates (defs : Definitions) (env : Collaborators)
    (file_io_handle : Option Nat) (key : List Nat) (flags : Nat)
    (hflags : flags &&& complement defs.LIBESEDB_ITEM_FLAG_MANAGED_FILE_IO_HANDLE = 0)
    (hsetup : SetupSucceeds defs env file_io_handle key flags) :
    ((∀ offset next, Reached env (stored_handle defs env file_io_handle flags) key offset →
        SegmentStep env (stored_handle defs env file_io_handle flags) key offset next →
        1 ≤ segment_data_size env (stored_handle defs env file_io_handle flags) key offset
        ∧ offset + segment_data_size env (stored_handle defs env file_io_handle flags) key
            offset < 2 ^ 32) →
      ∃ (fuel : Nat) (r : Outcome) (offsets : List Nat), fuel ≤ 2 ^ 32 + 1
        ∧ libesedb_long_value_initialize defs env fuel (some none) file_io_handle (some key)
            4 flags = some r
        ∧ offsets.Pairwise (· < ·) ∧ (∀ o ∈ offsets, o < 2 ^ 32)
        ∧ (lookups r.trace).tail.map (fun l => l.2.1)
          = offsets.map (long_value_segment_key key)
        ∧ ((lookups r.trace).tail.map (fun l => l.2.1)).Nodup
        ∧ (∀ l ∈ (lookups r.trace).tail.dropLast, l.2.2.2 = 1)
        ∧ (lookups r.trace).tail.length ≤ fuel)
    ∧ ∀ offset, Reached env (stored_handle defs env file_io_handle flags) key offset →
      SegmentStep env (stored_handle defs env file_io_handle flags) key offset
        (next_segment_offset env (stored_handle defs env file_io_handle flags) key offset) →
      segment_data_size env (stored_handle defs env file_io_handle flags) key offset = 0 →
      next_segment_offset env (stored_handle defs env file_io_handle flags) key offset = offset
      ∧ long_value_segment_key key
          (next_segment_offset env (stored_handle defs env file_io_handle flags) key offset)
        = long_value_segment_key key offset
      ∧ ∀ fuel, libesedb_long_value_initialize defs env fuel (some none) file_io_handle
        (some key) 4 flags = none := by
  constructor
  · intro hsizes
    obtain ⟨d, offsets, hd, hpair, hrange, hkeys, -, hones, hlen⟩ :=
      discover_segments_terminates defs env flags _ key hsizes (2 ^ 32 + 1) 0
        Relation.ReflTransGen.refl (by omega)
    obtain ⟨r, hr, hl⟩ : ∃ r, libesedb_long_value_initialize defs env (2 ^ 32 + 1) (some none)
        file_io_handle (some key) 4 flags = some r
        ∧ (lookups r.trace).tail = lookups d.trace := by
      rw [initialize_of_setup defs env _ file_io_handle key flags hflags hsetup, hd]
      cases he : d.error <;> simp only [he] <;>
        exact ⟨_, rfl, by simp [lookups_append, lookups_setup_trace]⟩
    refine ⟨2 ^ 32 + 1, r, offsets, le_rfl, hr, hpair, fun o ho => (hrange o ho).2, ?_, ?_, ?_,
      ?_⟩
    · rw [hl, hkeys]
    · rw [hl, hkeys]
      refine List.Nodup.map_on (fun a ha b hb hab => ?_)
        (hpair.imp (fun hab => Nat.ne_of_lt hab))
      exact long_value_segment_key_injective key a b (hrange a ha).2 (hrange b hb).2 hab
    · rw [hl]
      exact hones
    · rw [hl]
      exact hlen
  · intro offset hreach hstep hzero
    have hlt := reached_lt env _ key offset hreach
    have hnext : next_segment_offset env (stored_handle defs env file_io_handle flags) key
        offset = offset := by
      rw [next_segment_offset, hzero, Nat.add_zero, Nat.mod_eq_of_lt hlt]
    refine ⟨hnext, by rw [hnext], fun fuel => ?_⟩
    rw [initialize_of_setup defs env fuel file_io_handle key flags hflags hsetup,
      discover_segments_never defs env flags _ key offset hreach
        (discover_segments_stuck defs env flags _ key offset hlt hstep hzero) fuel]

theorem scenario_store_sizes (offset next : Nat)
    (hreach : Reached scenario_store (some 7) [1, 0, 0, 0] offset)
    (hstep : SegmentStep scenario_store (some 7) [1, 0, 0, 0] offset next) :
    1 ≤ segment_data_size scenario_store (some 7) [1, 0, 0, 0] offset
      ∧ offset + segment_data_size scenario_store (some 7) [1, 0, 0, 0] offset < 2 ^ 32 := by
  have hlt := reached_lt _ _ _ _ hreach
  obtain ⟨h1, -, -⟩ := hstep
  have hoff : offset = 0 ∨ offset = 4096 := by
    simp only [scenario_store, long_value_segment_key,
      byte_stream_copy_from_uint32_little_endian] at h1
    by_contra hne
    simp only [not_or] at hne
    have e1 : ¬ ([0, 0, 0, 1, offset % 256, offset / 256 % 256, offset / 65536 % 256,
        offset / 16777216 % 256] = [0, 0, 0, 1, 0, 0, 0, 0]) := by
      simp only [List.cons.injEq, true_and, and_true]
      omega
    have e2 : ¬ ([0, 0, 0, 1, offset % 256, offset / 256 % 256, offset / 65536 % 256,
        offset / 16777216 % 256] = [0, 0, 0, 1, 0, 16, 0, 0]) := by
      simp only [List.cons.injEq, true_and, and_true]
      omega
    simp [e1, e2] at h1
  rcases hoff with rfl | rfl <;> decide

/-- Witness of C10: the segment discovery of the scenario ends, its segments having the
sizes 4096 and 512; the discovery against a store with a segment of size 0 at offset 0 does
not end with a fuel of 1000. -/
theorem C10_segment_discovery_terminates_witness :
    (∃ (fuel : Nat) (r : Outcome) (offsets : List Nat), fuel ≤ 2 ^ 32 + 1
      ∧ libesedb_long_value_initialize example_definitions scenario_store fuel (some none)
          (some 7) (some [1, 0, 0, 0]) 4 0 = some r
      ∧ offsets.Pairwise (· < ·)
      ∧ (lookups r.trace).tail.map (fun l => l.2.1)
        = offsets.map (long_value_segment_key [1, 0, 0, 0])
      ∧ ((lookups r.trace).tail.map (fun l => l.2.1)).Nodup)
    ∧ libesedb_long_value_initialize example_definitions zero_size_store 1000 (some none)
        (some 7) (some [1, 0, 0, 0]) 4 0 = none := by
  obtain ⟨fuel, r, offsets, h1, h2, h3, -, h5, h6, -⟩ :=
    (C10_segment_discovery_terminates example_definitions scenario_store (some 7) [1, 0, 0, 0]
      0 (by decide) (by decide)).1 scenario_store_sizes
  exact ⟨⟨fuel, r, offsets, h1, h2, h3, h5, h6⟩,
    ((C10_segment_discovery_terminates example_definitions zero_size_store (some 7)
      [1, 0, 0, 0] 0 (by decide) (by decide)).2 0 Relation.ReflTransGen.refl
      (by decide) (by decide)).2.2 1000⟩

end Libesedb
